import Mathlib

/-!
A shallow embedding of the LabScan admin control-plane core
(src/admin/src-tauri/src/server.rs) together with proofs about the claims of
the specification.

Modelling conventions:
* Rust HashMaps become association lists (first binding wins, insert replaces).
* The connections map is modelled by its key set (the channel values are only
  used for sending frames, which has no effect on the shared state).
* serde_json free-form values (task params / results) are opaque strings.
* Uuid-generated identifiers are irrelevant to every claim; generated ids for
  log / activity entries are modelled as the empty string, while task ids and
  rotated pair tokens are supplied as parameters of the corresponding events.
* now_ms() is supplied as a parameter of each event; all calls inside one
  handler invocation observe the same value.
* Rust's stable sort_by is modelled by a stable insertion sort; f64 confidence
  values are modelled as rationals.
* OS probes (detect_local_ipv4 and friends) are modelled as unavailable; the
  admin network facts are a parameter of the initial state.
-/

namespace LabScan

/- Constants, server.rs lines 30-37. -/
def HEARTBEAT_TIMEOUT_MS : Int := 20000
def DEVICE_EMIT_THROTTLE_MS : Int := 1000
def DEVICE_ACTIVITY_RATE_MS : Int := 5000
def ACTIVITY_DEDUPE_MS : Int := 30000
def MAX_LOGS : Nat := 400
def MAX_ACTIVITY : Nat := 200

/-- serde_json::Value payloads are opaque to the server logic. -/
abbrev JsonValue := String

/-- Association-list lookup, modelling HashMap::get (first binding wins). -/
def lookupKV {β : Type} : List (String × β) → String → Option β
  | [], _ => none
  | (k2, v) :: rest, k => if k2 = k then some v else lookupKV rest k

/-- Association-list insert, modelling HashMap::insert (replaces the binding). -/
def insertKV {β : Type} : List (String × β) → String → β → List (String × β)
  | [], k, v => [(k, v)]
  | (k2, v2) :: rest, k, v =>
      if k2 = k then (k, v) :: rest else (k2, v2) :: insertKV rest k v

/-- Stable insertion of an element into a sorted list. -/
def insert_sorted {α : Type} (le : α → α → Bool) (x : α) : List α → List α
  | [] => [x]
  | y :: rest => if le x y then x :: y :: rest else y :: insert_sorted le x rest

/-- Stable sort, modelling Rust's stable Vec::sort_by. -/
def sort_by {α : Type} (le : α → α → Bool) : List α → List α
  | [] => []
  | x :: rest => insert_sorted le x (sort_by le rest)

/-- Turn a three-way comparator into a "not greater" boolean relation. -/
def le_of_cmp {α : Type} (cmpf : α → α → Ordering) (x y : α) : Bool :=
  match cmpf x y with
  | Ordering.gt => false
  | _ => true

/-- Remove adjacent duplicates, modelling Vec::dedup. -/
def dedup_adjacent {α : Type} [DecidableEq α] : List α → List α
  | [] => []
  | [x] => [x]
  | x :: y :: rest =>
      if x = y then dedup_adjacent (y :: rest) else x :: dedup_adjacent (y :: rest)

/- Data model, server.rs lines 49-285. -/

structure ArpEntry where
  ip : String
  mac : String
deriving DecidableEq, Repr

structure NetworkFactsPayload where
  ip : String
  subnet_cidr : String
  default_gateway_ip : String
  interface_type : String
  mac : Option String
  gateway_mac : Option String
  dhcp_server_ip : Option String
  ssid : Option String
  arp_snapshot : List ArpEntry
deriving DecidableEq, Repr

structure DeviceRecord where
  agent_id : String
  hostname : String
  ips : List String
  os : String
  version : String
  status : String
  last_seen_ms : Int
  internet_reachable : Option Bool
  dns_ok : Option Bool
  gateway_reachable : Option Bool
  latency_ms : Option Int
  last_internet_change_ms : Option Int
  last_dns_change_ms : Option Int
  first_seen_ms : Int
  ip : Option String
  subnet_cidr : Option String
  default_gateway_ip : Option String
  interface_type : Option String
  mac : Option String
  gateway_mac : Option String
  dhcp_server_ip : Option String
  ssid : Option String
  arp_snapshot : List ArpEntry
deriving DecidableEq, Repr

structure TopologyNode where
  id : String
  node_type : String
  label : String
  subnet_cidr : Option String
  gateway_ip : Option String
  agent_id : Option String
  interface_type : Option String
  attached_count : Option Nat
deriving DecidableEq, Repr

structure TopologyEdge where
  id : String
  child_id : String
  parent_id : String
  method : String
  confidence : Rat
deriving DecidableEq, Repr

structure TopologySnapshot where
  revision : Nat
  updated_at : Int
  nodes : List TopologyNode
  edges : List TopologyEdge
deriving DecidableEq, Repr

structure TaskResultRecord where
  agent_id : String
  ok : Bool
  result : JsonValue
  error : Option String
  ts : Int
deriving DecidableEq, Repr

structure TaskRecord where
  task_id : String
  kind : String
  params : JsonValue
  assigned_agents : List String
  status : String
  created_at : Int
  started_at : Option Int
  ended_at : Option Int
  results : List TaskResultRecord
deriving DecidableEq, Repr

structure ActivityEvent where
  id : String
  kind : String
  agent_id : Option String
  message : String
  ts : Int
  count : Option Nat
deriving DecidableEq, Repr

structure LogEvent where
  id : String
  agent_id : Option String
  level : String
  message : String
  ts : Int
deriving DecidableEq, Repr

/-- Heartbeat metrics: the outer Option is key presence in the JSON object,
the inner Option is the result of Value::as_bool / as_i64. -/
structure MetricsPayload where
  internet_reachable : Option (Option Bool)
  dns_ok : Option (Option Bool)
  gateway_reachable : Option (Option Bool)
  latency_ms : Option (Option Int)
deriving DecidableEq, Repr

structure HeartbeatPayload where
  status : String
  last_seen : Int
  metrics : Option MetricsPayload
  network : NetworkFactsPayload
deriving DecidableEq, Repr

structure TaskResultPayload where
  task_id : String
  ok : Bool
  result : JsonValue
  error : Option String
deriving DecidableEq, Repr

/- Pure string helpers, server.rs lines 1699-1720. -/

/-- str::trim (whitespace stripped from both ends). -/
def rust_trim (value : String) : String :=
  String.mk (((value.data.dropWhile Char.isWhitespace).reverse.dropWhile
    Char.isWhitespace).reverse)

/-- str::split on a single separator character, at the character-list level.
Splitting the empty string yields one empty piece, as in Rust. -/
def split_chars (c : Char) : List Char → List (List Char)
  | [] => [[]]
  | x :: rest =>
      let r := split_chars c rest
      if x = c then [] :: r
      else
        match r with
        | h :: t => (x :: h) :: t
        | [] => [[x]]

def split_on_char (c : Char) (value : String) : List String :=
  (split_chars c value.data).map String.mk

/-- clean_non_empty_owned, server.rs lines 1699-1706. -/
def clean_non_empty_owned (value : String) : Option String :=
  let trimmed := rust_trim value
  if trimmed = "" then none else some trimmed

/-- guess_subnet_from_ip, server.rs lines 1708-1715. -/
def guess_subnet_from_ip (ip : String) : Option String :=
  match split_on_char '.' ip with
  | [p0, p1, p2, _] => some (p0 ++ "." ++ p1 ++ "." ++ p2 ++ ".0/24")
  | _ => none

/-- One octet of a dotted-quad IPv4 address, following Rust's Ipv4Addr parser
(only digits, no leading zeros, at most 3 digits, value at most 255). -/
def parse_ipv4_octet (chars : List Char) : Option Nat :=
  match chars with
  | [] => none
  | c :: restChars =>
      if (c :: restChars).all Char.isDigit then
        if c = '0' ∧ restChars ≠ [] then none
        else
          let v := (c :: restChars).foldl (fun acc ch => acc * 10 + (ch.toNat - 48)) 0
          if v ≤ 255 ∧ (c :: restChars).length ≤ 3 then some v else none
      else none

/-- ip_to_u32, server.rs lines 1717-1720. -/
def ip_to_u32 (value : String) : Option Nat :=
  match (split_on_char '.' value).map (fun part => parse_ipv4_octet part.data) with
  | [some a, some b, some c, some d] => some (((a * 256 + b) * 256 + c) * 256 + d)
  | _ => none

/-- apply_network_payload, server.rs lines 1229-1254. -/
def apply_network_payload (device : DeviceRecord) (network : NetworkFactsPayload) :
    DeviceRecord :=
  let ip := (clean_non_empty_owned network.ip).orElse
    (fun _ => device.ips.findSome? clean_non_empty_owned)
  { device with
    ip := ip
    subnet_cidr := (clean_non_empty_owned network.subnet_cidr).orElse
      (fun _ => ip.bind guess_subnet_from_ip)
    default_gateway_ip := clean_non_empty_owned network.default_gateway_ip
    interface_type := clean_non_empty_owned network.interface_type
    mac := network.mac.bind clean_non_empty_owned
    gateway_mac := network.gateway_mac.bind clean_non_empty_owned
    dhcp_server_ip := network.dhcp_server_ip.bind clean_non_empty_owned
    ssid := network.ssid.bind clean_non_empty_owned
    arp_snapshot := if network.arp_snapshot ≠ [] then network.arp_snapshot
      else device.arp_snapshot }

/- Topology builder, server.rs lines 1256-1607. -/

/-- compare_device_topology_order, server.rs lines 1528-1550. -/
def compare_device_topology_order (a b : DeviceRecord) : Ordering :=
  let tie :=
    let host_cmp := compare a.hostname b.hostname
    if host_cmp ≠ Ordering.eq then host_cmp else compare a.agent_id b.agent_id
  match (a.ip.orElse (fun _ => a.ips.head?)).bind ip_to_u32,
        (b.ip.orElse (fun _ => b.ips.head?)).bind ip_to_u32 with
  | some x, some y => if x ≠ y then compare x y else tie
  | some _, none => Ordering.lt
  | none, some _ => Ordering.gt
  | none, none => tie

/-- compare_topology_nodes, server.rs lines 1552-1583. -/
def topology_node_rank (node_type : String) : Nat :=
  if node_type = "subnet" then 0
  else if node_type = "gateway" then 1
  else if node_type = "switch" then 2
  else if node_type = "unknown_hub" then 3
  else if node_type = "admin" then 4
  else if node_type = "host" then 5
  else 6

def compare_topology_nodes (a b : TopologyNode) : Ordering :=
  let r := compare (topology_node_rank a.node_type) (topology_node_rank b.node_type)
  if r ≠ Ordering.eq then r
  else
    match (a.gateway_ip.bind ip_to_u32).orElse (fun _ => ip_to_u32 a.label),
          (b.gateway_ip.bind ip_to_u32).orElse (fun _ => ip_to_u32 b.label) with
    | some x, some y => if x ≠ y then compare x y else compare a.id b.id
    | some _, none => Ordering.lt
    | none, some _ => Ordering.gt
    | none, none => compare a.id b.id

/-- Comparator for edge sorting, server.rs lines 1469-1475. -/
def compare_topology_edges (a b : TopologyEdge) : Ordering :=
  let child := compare a.child_id b.child_id
  if child ≠ Ordering.eq then child else compare a.parent_id b.parent_id

/-- Option<String> ordering (Rust Ord: None before Some). -/
def cmp_opt_string : Option String → Option String → Ordering
  | none, none => Ordering.eq
  | none, some _ => Ordering.lt
  | some _, none => Ordering.gt
  | some x, some y => compare x y

/-- Gateway spec comparator, server.rs lines 1323-1336 (spec = (gateway_ip, subnet)). -/
def compare_gateway_specs (a b : String × Option String) : Ordering :=
  let subnet_cmp := cmp_opt_string a.2 b.2
  if subnet_cmp ≠ Ordering.eq then subnet_cmp
  else
    match ip_to_u32 a.1, ip_to_u32 b.1 with
    | some x, some y => if x ≠ y then compare x y else compare a.1 b.1
    | some _, none => Ordering.lt
    | none, some _ => Ordering.gt
    | none, none => compare a.1 b.1

/-- All topology edges are built as child->parent with these fields. -/
def mk_edge (child parent method : String) (confidence : Rat) : TopologyEdge :=
  { id := child ++ "->" ++ parent, child_id := child, parent_id := parent,
    method := method, confidence := confidence }

def mk_subnet_node (subnet : String) : TopologyNode :=
  { id := "subnet:" ++ subnet, node_type := "subnet", label := subnet,
    subnet_cidr := some subnet, gateway_ip := none, agent_id := none,
    interface_type := none, attached_count := none }

def mk_gateway_node (gateway_ip : String) (subnet : Option String) : TopologyNode :=
  { id := "gw:" ++ gateway_ip, node_type := "gateway", label := "Gateway " ++ gateway_ip,
    subnet_cidr := subnet, gateway_ip := some gateway_ip, agent_id := none,
    interface_type := none, attached_count := none }

def mk_hub_node (hub_id : String) (subnet : Option String) : TopologyNode :=
  { id := hub_id, node_type := "unknown_hub", label := "Unknown Hub",
    subnet_cidr := subnet, gateway_ip := none, agent_id := none,
    interface_type := none, attached_count := none }

def mk_host_node (host : DeviceRecord) : TopologyNode :=
  { id := "host:" ++ host.agent_id, node_type := "host", label := host.hostname,
    subnet_cidr := host.subnet_cidr, gateway_ip := host.default_gateway_ip,
    agent_id := some host.agent_id, interface_type := host.interface_type,
    attached_count := none }

/-- Mutable builder state threaded through the topology construction. -/
structure BuildCtx where
  nodes : List TopologyNode
  edges : List TopologyEdge
  hub_ids : List (String × String)
  attach : List (String × Nat)
deriving DecidableEq, Repr

def bump_attach (attach : List (String × Nat)) (k : String) : List (String × Nat) :=
  insertKV attach k ((lookupKV attach k).getD 0 + 1)

/-- ensure_unknown_hub_node, server.rs lines 1485-1526. -/
def ensure_unknown_hub_node (ctx : BuildCtx) (subnet_nodes : List (String × String))
    (subnet : Option String) (use_subnet_nodes : Bool) : String × BuildCtx :=
  let subnet_key := subnet.getD "unknown"
  match lookupKV ctx.hub_ids subnet_key with
  | some existing => (existing, ctx)
  | none =>
    let hub_id := "hub:" ++ subnet_key
    let ctx1 := { ctx with nodes := ctx.nodes ++ [mk_hub_node hub_id subnet] }
    let ctx2 :=
      if use_subnet_nodes then
        match subnet with
        | some subnet_value =>
            match lookupKV subnet_nodes subnet_value with
            | some subnet_id =>
                { ctx1 with edges := ctx1.edges ++ [mk_edge hub_id subnet_id "heuristic" 0.5] }
            | none => ctx1
        | none => ctx1
      else ctx1
    (hub_id, { ctx2 with hub_ids := insertKV ctx2.hub_ids subnet_key hub_id })

/-- build_topology_snapshot, server.rs lines 1256-1483. -/
def build_topology_snapshot (devices : List (String × DeviceRecord))
    (device_order : List String) (admin_network : NetworkFactsPayload)
    (revision : Nat) (now : Int) : TopologySnapshot :=
  let host_records := sort_by (le_of_cmp compare_device_topology_order)
    (device_order.filterMap (fun id => lookupKV devices id))
  -- detect_local_ipv4_string is an OS probe, modelled as unavailable
  let admin_ip := (clean_non_empty_owned admin_network.ip).getD "127.0.0.1"
  let admin_subnet := (clean_non_empty_owned admin_network.subnet_cidr).orElse
    (fun _ => guess_subnet_from_ip admin_ip)
  let admin_gateway := clean_non_empty_owned admin_network.default_gateway_ip
  let observed_subnets := dedup_adjacent (sort_by (le_of_cmp compare)
    (host_records.filterMap (fun d => d.subnet_cidr) ++ admin_subnet.toList))
  let use_subnet_nodes := decide (observed_subnets.length > 1)
  let subnet_nodes :=
    if use_subnet_nodes then observed_subnets.map (fun subnet => (subnet, "subnet:" ++ subnet))
    else []
  let nodes0 : List TopologyNode :=
    if use_subnet_nodes then observed_subnets.map mk_subnet_node else []
  let gateway_specs0 : List (String × Option String) :=
    (match admin_gateway with
     | some gw => [(gw, admin_subnet)]
     | none => []) ++
    host_records.filterMap (fun host =>
      (host.default_gateway_ip.bind clean_non_empty_owned).map (fun gw => (gw, host.subnet_cidr)))
  let gateway_specs := dedup_adjacent (sort_by (le_of_cmp compare_gateway_specs) gateway_specs0)
  let gw_fold := gateway_specs.foldl
    (fun (acc : List (String × String) × List TopologyNode × List TopologyEdge) spec =>
      let gateway_ip := spec.1
      let subnet := spec.2
      let key := subnet.getD "" ++ "|" ++ gateway_ip
      let gateway_id := "gw:" ++ gateway_ip
      let gwmap := insertKV acc.1 key gateway_id
      let nodes := acc.2.1 ++ [mk_gateway_node gateway_ip subnet]
      let edges :=
        if use_subnet_nodes then
          match subnet with
          | some subnet_value =>
              match lookupKV subnet_nodes subnet_value with
              | some subnet_id => acc.2.2 ++ [mk_edge gateway_id subnet_id "evidence" 1]
              | none => acc.2.2
          | none => acc.2.2
        else acc.2.2
      (gwmap, nodes, edges))
    (([] : List (String × String)), nodes0, ([] : List TopologyEdge))
  let gateway_by_key := gw_fold.1
  let admin_id := "admin:self"
  let admin_node : TopologyNode :=
    { id := admin_id, node_type := "admin", label := "Admin",
      subnet_cidr := admin_subnet, gateway_ip := admin_gateway, agent_id := none,
      interface_type := clean_non_empty_owned admin_network.interface_type,
      attached_count := none }
  let ctxA : BuildCtx :=
    { nodes := gw_fold.2.1 ++ [admin_node], edges := gw_fold.2.2, hub_ids := [], attach := [] }
  let admin_ctx : BuildCtx :=
    match admin_gateway with
    | some gw =>
        let parent_id := (lookupKV gateway_by_key (admin_subnet.getD "" ++ "|" ++ gw)).getD
          ("gw:" ++ gw)
        { ctxA with edges := ctxA.edges ++ [mk_edge admin_id parent_id "evidence" 0.9],
                    attach := bump_attach ctxA.attach parent_id }
    | none =>
        let r := ensure_unknown_hub_node ctxA subnet_nodes admin_subnet use_subnet_nodes
        { r.2 with edges := r.2.edges ++ [mk_edge admin_id r.1 "heuristic" 0.5],
                   attach := bump_attach r.2.attach r.1 }
  let host_ctx := host_records.foldl
    (fun ctx host =>
      let node_id := "host:" ++ host.agent_id
      let ctx1 := { ctx with nodes := ctx.nodes ++ [mk_host_node host] }
      match host.default_gateway_ip.bind clean_non_empty_owned with
      | some gw =>
          let parent_id := (lookupKV gateway_by_key (host.subnet_cidr.getD "" ++ "|" ++ gw)).getD
            ("gw:" ++ gw)
          { ctx1 with edges := ctx1.edges ++ [mk_edge node_id parent_id "evidence" 0.9],
                      attach := bump_attach ctx1.attach parent_id }
      | none =>
          let r := ensure_unknown_hub_node ctx1 subnet_nodes host.subnet_cidr use_subnet_nodes
          { r.2 with edges := r.2.edges ++ [mk_edge node_id r.1 "heuristic" 0.45],
                     attach := bump_attach r.2.attach r.1 })
    admin_ctx
  let nodes_final := host_ctx.nodes.map (fun n =>
    if n.node_type = "gateway" ∨ n.node_type = "unknown_hub" then
      { n with attached_count := some ((lookupKV host_ctx.attach n.id).getD 0) }
    else n)
  { revision := revision
    updated_at := now
    nodes := sort_by (le_of_cmp compare_topology_nodes) nodes_final
    edges := sort_by (le_of_cmp compare_topology_edges) host_ctx.edges }

/-- topology_key, server.rs lines 1585-1607. -/
def topology_key (snapshot : TopologySnapshot) : String :=
  let node_parts := sort_by (le_of_cmp compare)
    (snapshot.nodes.map (fun n =>
      n.id ++ "|" ++ n.node_type ++ "|" ++ n.subnet_cidr.getD "" ++ "|" ++ n.gateway_ip.getD ""))
  let edge_parts := sort_by (le_of_cmp compare)
    (snapshot.edges.map (fun e => e.child_id ++ "|" ++ e.parent_id ++ "|" ++ e.method))
  String.intercalate ";" node_parts ++ "#" ++ String.intercalate ";" edge_parts

/- Runtime state, server.rs lines 270-322. -/

structure RuntimeState where
  online : Bool
  pair_token : String
  devices : List (String × DeviceRecord)
  device_order : List String
  tasks : List (String × TaskRecord)
  logs : List LogEvent
  activity : List ActivityEvent
  /-- Key set of the connections map (agent-id → outbound channel). -/
  connections : List String
  last_device_emit_ms : List (String × Int)
  last_activity_emit_ms : List (String × Int)
  topology_snapshot : TopologySnapshot
  topology_key : String
  admin_network : NetworkFactsPayload
  /-- Ghost field: topology snapshots emitted to the UI, newest first. -/
  topology_emits : List TopologySnapshot
deriving DecidableEq, Repr

/-- ServerManager::new, server.rs lines 299-322 (pair token and admin network
facts are parameters; the initial updated_at timestamp is immaterial). -/
def initState (token : String) (admin : NetworkFactsPayload) : RuntimeState :=
  { online := false, pair_token := token, devices := [], device_order := [],
    tasks := [], logs := [], activity := [], connections := [],
    last_device_emit_ms := [], last_activity_emit_ms := [],
    topology_snapshot := { revision := 0, updated_at := 0, nodes := [], edges := [] },
    topology_key := "", admin_network := admin, topology_emits := [] }

/- Event emission layer, server.rs lines 668-830. -/

/-- emit_log, server.rs lines 743-765 (push_front then truncate to MAX_LOGS). -/
def emit_log (s : RuntimeState) (aid : Option String) (level message : String)
    (now : Int) : RuntimeState :=
  { s with logs :=
      ({ id := "", agent_id := aid, level := level, message := message, ts := now }
        :: s.logs).take MAX_LOGS }

/-- The per-agent activity rate limit, server.rs lines 775-784. -/
def activity_dropped (lastMap : List (String × Int)) (aid : Option String)
    (now : Int) : Bool :=
  match aid with
  | some id => decide (now - (lookupKV lastMap id).getD 0 < DEVICE_ACTIVITY_RATE_MS)
  | none => false

/-- The activity ring after emit_activity, server.rs lines 786-827. -/
def activity_after (activity : List ActivityEvent) (lastMap : List (String × Int))
    (kind : String) (aid : Option String) (message : String) (now : Int) :
    List ActivityEvent :=
  if activity_dropped lastMap aid now then activity
  else
    match activity with
    | front :: rest =>
        if front.kind = kind ∧ front.agent_id = aid ∧ now - front.ts ≤ ACTIVITY_DEDUPE_MS then
          { front with ts := now, count := some (front.count.getD 1 + 1) } :: rest
        else
          ({ id := "", kind := kind, agent_id := aid, message := message, ts := now,
             count := none } :: front :: rest).take MAX_ACTIVITY
    | [] =>
        [{ id := "", kind := kind, agent_id := aid, message := message, ts := now,
           count := none }]

/-- The per-agent emission timestamps after emit_activity, server.rs lines 786-790. -/
def last_activity_after (lastMap : List (String × Int)) (aid : Option String)
    (now : Int) : List (String × Int) :=
  if activity_dropped lastMap aid now then lastMap
  else
    match aid with
    | some id => insertKV lastMap id now
    | none => lastMap

/-- emit_activity, server.rs lines 767-830. -/
def emit_activity (s : RuntimeState) (kind : String) (aid : Option String)
    (message : String) (now : Int) : RuntimeState :=
  { s with
    activity := activity_after s.activity s.last_activity_emit_ms kind aid message now
    last_activity_emit_ms := last_activity_after s.last_activity_emit_ms aid now }

/-- emit_device_upsert_if_needed, server.rs lines 705-732 (the UI emission has
no effect on the shared state beyond the throttle timestamps). -/
def emit_device_upsert_if_needed (s : RuntimeState) (agentId : String) (force : Bool)
    (now : Int) : RuntimeState :=
  { s with last_device_emit_ms :=
      if force ∨ DEVICE_EMIT_THROTTLE_MS ≤ now - (lookupKV s.last_device_emit_ms agentId).getD 0
      then insertKV s.last_device_emit_ms agentId now
      else s.last_device_emit_ms }

/-- The candidate snapshot built by rebuild_topology_if_changed, server.rs lines 685-690. -/
def topology_candidate (s : RuntimeState) (now : Int) : TopologySnapshot :=
  build_topology_snapshot s.devices s.device_order s.admin_network
    (s.topology_snapshot.revision + 1) now

/-- rebuild_topology_if_changed, server.rs lines 682-703. -/
def rebuild_topology_if_changed (s : RuntimeState) (now : Int) : RuntimeState :=
  let candidate := topology_candidate s now
  let key := topology_key candidate
  if key ≠ s.topology_key then
    { s with topology_key := key, topology_snapshot := candidate,
             topology_emits := candidate :: s.topology_emits }
  else s

/- Agent session handler, server.rs lines 870-1227. -/

/-- The fresh DeviceRecord used by or_insert on register, server.rs lines 958-985. -/
def fresh_device (a hostname : String) (ips : List String) (os ver : String)
    (now : Int) : DeviceRecord :=
  { agent_id := a, hostname := hostname, ips := ips, os := os, version := ver,
    status := "online", last_seen_ms := now, internet_reachable := none,
    dns_ok := none, gateway_reachable := none, latency_ms := none,
    last_internet_change_ms := none, last_dns_change_ms := none,
    first_seen_ms := now, ip := none, subnet_cidr := none,
    default_gateway_ip := none, interface_type := none, mac := none,
    gateway_mac := none, dhcp_server_ip := none, ssid := none, arp_snapshot := [] }

/-- The field overwrites applied to the (fresh or existing) device entry on
register, server.rs lines 987-994. -/
def register_device_update (entry0 : DeviceRecord) (hostname : String)
    (ips : List String) (os ver : String) (net : NetworkFactsPayload)
    (now : Int) : DeviceRecord :=
  apply_network_payload
    { entry0 with hostname := hostname, ips := ips, os := os, version := ver,
                  status := "online", last_seen_ms := now }
    net

/-- Insert-if-absent on the key set of the connections map. -/
def conn_insert (conns : List String) (a : String) : List String :=
  if a ∈ conns then conns else conns ++ [a]

/-- The register branch of handle_agent_socket, server.rs lines 909-1028.
A register frame whose secret does not match the current pair token only
produces a reply and closes the socket: the shared state is unchanged. -/
def register_step (s : RuntimeState) (a secret hostname : String) (ips : List String)
    (os ver : String) (net : NetworkFactsPayload) (now : Int) : RuntimeState :=
  if secret = s.pair_token then
    let s1 := { s with connections := conn_insert s.connections a }
    let was_new := (lookupKV s1.devices a).isNone
    let s2 := if was_new then { s1 with device_order := s1.device_order ++ [a] } else s1
    let entry0 := (lookupKV s2.devices a).getD (fresh_device a hostname ips os ver now)
    let old_status := entry0.status
    let entry1 := register_device_update entry0 hostname ips os ver net now
    let s3 := { s2 with devices := insertKV s2.devices a entry1 }
    let s4 := emit_device_upsert_if_needed s3 a true now
    let s5 :=
      if was_new then
        emit_activity s4 "device_connected" (some a) (entry1.hostname ++ " connected") now
      else s4
    let s6 :=
      if old_status ≠ "online" then
        emit_activity s5 "device_status_changed" (some a)
          (entry1.hostname ++ " status " ++ old_status ++ " -> online") now
      else s5
    rebuild_topology_if_changed s6 now
  else s

/-- Metric field updates from payload.metrics, server.rs lines 1055-1068. -/
def apply_metrics (device : DeviceRecord) (metrics : Option MetricsPayload) :
    DeviceRecord :=
  match metrics with
  | none => device
  | some m =>
      { device with
        internet_reachable :=
          match m.internet_reachable with
          | some v => v
          | none => device.internet_reachable
        dns_ok :=
          match m.dns_ok with
          | some v => v
          | none => device.dns_ok
        gateway_reachable :=
          match m.gateway_reachable with
          | some v => v
          | none => device.gateway_reachable
        latency_ms :=
          match m.latency_ms with
          | some v => v
          | none => device.latency_ms }

/-- The device mutation performed by a heartbeat, server.rs lines 1043-1090. -/
def heartbeat_device_update (device : DeviceRecord) (p : HeartbeatPayload)
    (now : Int) : DeviceRecord :=
  let d1 := { device with
    last_seen_ms := if 0 < p.last_seen then p.last_seen else now
    status := if p.status ≠ "" then p.status else device.status }
  let d3 := apply_network_payload (apply_metrics d1 p.metrics) p.network
  { d3 with
    last_internet_change_ms :=
      if device.internet_reachable ≠ d3.internet_reachable then some now
      else d3.last_internet_change_ms
    last_dns_change_ms :=
      if device.dns_ok ≠ d3.dns_ok then some now else d3.last_dns_change_ms }

/-- Rust Debug formatting of Option<bool> for log / activity messages. -/
def fmt_opt_bool : Option Bool → String
  | none => "None"
  | some true => "Some(true)"
  | some false => "Some(false)"

/-- The heartbeat branch of handle_agent_socket, server.rs lines 1036-1162. -/
def heartbeat_step (s : RuntimeState) (a : String) (p : HeartbeatPayload)
    (now : Int) : RuntimeState :=
  match lookupKV s.devices a with
  | none => s
  | some device =>
      let d4 := heartbeat_device_update device p now
      let status_changed := device.status ≠ d4.status
      let internet_changed := device.internet_reachable ≠ d4.internet_reachable
      let dns_changed := device.dns_ok ≠ d4.dns_ok
      let s1 := { s with devices := insertKV s.devices a d4 }
      let s2 := emit_device_upsert_if_needed s1 a false now
      let s3 :=
        if status_changed then
          emit_activity s2 "device_status_changed" (some a)
            (d4.hostname ++ " status " ++ device.status ++ " -> " ++ d4.status) now
        else s2
      let s4 :=
        if internet_changed then
          emit_activity
            (emit_log s3 (some a) "INFO"
              ("internet_reachable changed " ++ fmt_opt_bool device.internet_reachable
                ++ " -> " ++ fmt_opt_bool d4.internet_reachable) now)
            "internet_status_changed" (some a)
            (d4.hostname ++ " internet " ++ fmt_opt_bool device.internet_reachable
              ++ " -> " ++ fmt_opt_bool d4.internet_reachable) now
        else s3
      let s5 :=
        if dns_changed then
          emit_activity
            (emit_log s4 (some a) "INFO"
              ("dns_ok changed " ++ fmt_opt_bool device.dns_ok
                ++ " -> " ++ fmt_opt_bool d4.dns_ok) now)
            "dns_status_changed" (some a)
            (d4.hostname ++ " dns " ++ fmt_opt_bool device.dns_ok
              ++ " -> " ++ fmt_opt_bool d4.dns_ok) now
        else s4
      rebuild_topology_if_changed s5 now

/-- The per-agent result record pushed by a task_result frame, server.rs
lines 1170-1176. -/
def mk_result (a : String) (p : TaskResultPayload) (now : Int) : TaskResultRecord :=
  { agent_id := a, ok := p.ok, result := p.result, error := p.error, ts := now }

/-- The updated task record after a task_result frame, server.rs lines 1168-1184. -/
def task_result_update (task : TaskRecord) (a : String) (p : TaskResultPayload)
    (now : Int) : TaskRecord :=
  let results1 := task.results.filter (fun r => r.agent_id ≠ a) ++ [mk_result a p now]
  if results1.length = task.assigned_agents.length then
    { task with results := results1, ended_at := some now,
                status := if results1.all (fun r => r.ok) then "done" else "failed" }
  else
    { task with results := results1 }

/-- The task_result branch of handle_agent_socket, server.rs lines 1164-1213. -/
def task_result_step (s : RuntimeState) (a : String) (p : TaskResultPayload)
    (now : Int) : RuntimeState :=
  match lookupKV s.tasks p.task_id with
  | none => s
  | some task =>
      let t1 := task_result_update task a p now
      let s1 := { s with tasks := insertKV s.tasks p.task_id t1 }
      let k :=
        if t1.status = "failed" then "task_failed"
        else if t1.status = "done" then "task_completed"
        else "task_started"
      emit_activity s1 k (some a) ("Task " ++ t1.task_id ++ " status " ++ t1.status) now

/-- on_agent_disconnect, server.rs lines 832-859 (socket teardown). -/
def on_agent_disconnect (s : RuntimeState) (a : String) (now : Int) : RuntimeState :=
  let s1 := { s with connections := s.connections.filter (fun x => x ≠ a) }
  match lookupKV s1.devices a with
  | some d =>
      let d1 := { d with status := "offline", last_seen_ms := now }
      let s2 := { s1 with devices := insertKV s1.devices a d1 }
      let s3 := emit_device_upsert_if_needed s2 a true now
      let s4 := emit_activity s3 "device_disconnected" (some a)
        (d1.hostname ++ " disconnected") now
      rebuild_topology_if_changed s4 now
  | none =>
      -- emit_device_remove only talks to the UI
      rebuild_topology_if_changed s1 now

/-- The status flip applied per device by the watchdog, server.rs lines 604-609. -/
def watchdog_update (now : Int) (d : DeviceRecord) : DeviceRecord :=
  if d.status ≠ "offline" ∧ HEARTBEAT_TIMEOUT_MS < now - d.last_seen_ms then
    { d with status := "offline" }
  else d

/-- The emission pass over flipped devices, server.rs lines 611-623. -/
def watchdog_notify (now : Int) (st : RuntimeState) (id : String) : RuntimeState :=
  match lookupKV st.devices id with
  | some device =>
      emit_activity (emit_device_upsert_if_needed st id true now)
        "device_disconnected" (some id)
        (device.hostname ++ " disconnected (heartbeat timeout)") now
  | none => st

/-- One sweep of heartbeat_watchdog, server.rs lines 597-625. -/
def heartbeat_watchdog_step (s : RuntimeState) (now : Int) : RuntimeState :=
  let flipped := (s.devices.filter (fun kd =>
    decide (kd.2.status ≠ "offline" ∧ HEARTBEAT_TIMEOUT_MS < now - kd.2.last_seen_ms))).map
    (fun kd => kd.1)
  let s1 := { s with devices := s.devices.map (fun kd => (kd.1, watchdog_update now kd.2)) }
  flipped.foldl (watchdog_notify now) s1

/-- ServerManager::dispatch_task plus dispatch_task_now, server.rs lines 410-454
and 627-661.  The generated task UUID is the task_id parameter; a channel send
to a connected agent always succeeds, so started holds exactly when some
assigned agent has an entry in the connections map. -/
def dispatch_task (s : RuntimeState) (agents : List String) (kind : String)
    (params : JsonValue) (task_id : String) (now : Int) :
    Except String TaskRecord × RuntimeState :=
  if agents = [] then (Except.error "at least one agent is required", s)
  else if ¬ (kind = "ping" ∨ kind = "port_scan" ∨ kind = "arp_snapshot") then
    (Except.error "unsupported task kind", s)
  else
    let task : TaskRecord :=
      { task_id := task_id, kind := kind, params := params, assigned_agents := agents,
        status := "queued", created_at := now, started_at := none, ended_at := none,
        results := [] }
    let started := agents.any (fun ag => s.connections.contains ag)
    let task1 :=
      if started then { task with status := "running", started_at := some now } else task
    let s1 := { s with tasks := insertKV s.tasks task_id task1 }
    let s2 := emit_activity s1 "task_started" none
      ("Task started: " ++ task1.kind ++ " (" ++ task1.task_id ++ ")") now
    (Except.ok task1, s2)

/-- rotate_pair_token, server.rs lines 398-408 (the fresh UUID is a parameter;
emit_server_status does not touch the shared state). -/
def rotate_pair_token (s : RuntimeState) (newToken : String) (now : Int) : RuntimeState :=
  emit_log { s with pair_token := newToken } none "INFO" "Pair token rotated" now

/- The event-level transition system. -/

/-- One externally triggered mutation of the shared state.  Each event carries
the wall-clock reading and freshly generated identifiers of that invocation. -/
inductive Ev where
  | register (a secret hostname : String) (ips : List String) (os ver : String)
      (net : NetworkFactsPayload) (now : Int)
  | heartbeat (a : String) (p : HeartbeatPayload) (now : Int)
  | task_result (a : String) (p : TaskResultPayload) (now : Int)
  | disconnect (a : String) (now : Int)
  | watchdog (now : Int)
  | dispatch (agents : List String) (kind : String) (params : JsonValue)
      (task_id : String) (now : Int)
  | rotate (token : String) (now : Int)
  | set_online (b : Bool)
deriving Repr

def step (s : RuntimeState) : Ev → RuntimeState
  | Ev.register a secret hostname ips os ver net now =>
      register_step s a secret hostname ips os ver net now
  | Ev.heartbeat a p now => heartbeat_step s a p now
  | Ev.task_result a p now => task_result_step s a p now
  | Ev.disconnect a now => on_agent_disconnect s a now
  | Ev.watchdog now => heartbeat_watchdog_step s now
  | Ev.dispatch agents kind params task_id now =>
      (dispatch_task s agents kind params task_id now).2
  | Ev.rotate token now => rotate_pair_token s token now
  | Ev.set_online b => { s with online := b }

def runEvents (token : String) (admin : NetworkFactsPayload) (evs : List Ev) :
    RuntimeState :=
  evs.foldl step (initState token admin)

/-- A state is reachable when some event trace from some initial state produces it. -/
def Reachable (s : RuntimeState) : Prop :=
  ∃ token admin evs, s = runEvents token admin evs

/- Invariant predicates used by the claims. -/

/-- A task is in a terminal status. -/
def task_terminal (t : TaskRecord) : Prop :=
  t.status = "done" ∨ t.status = "failed"

/-- The inductive invariant on a single task record. -/
def task_ok (t : TaskRecord) : Prop :=
  1 ≤ t.assigned_agents.length ∧
  (task_terminal t ↔ t.assigned_agents.length ≤ t.results.length) ∧
  (task_terminal t → t.ended_at.isSome = true) ∧
  (t.results.map (fun r => r.agent_id)).Nodup

def TasksInv (s : RuntimeState) : Prop :=
  ∀ k t, lookupKV s.tasks k = some t → task_ok t

/-- Every connections key has a device record. -/
def ConnInv (s : RuntimeState) : Prop :=
  ∀ a, a ∈ s.connections → (lookupKV s.devices a).isSome = true

/-- device_order is duplicate free and only names existing devices. -/
def OrderInv (s : RuntimeState) : Prop :=
  s.device_order.Nodup ∧ ∀ x, x ∈ s.device_order → (lookupKV s.devices x).isSome = true

/- The frozen claims, stated exactly as the specification puts them. -/

/-- Claim C1 as stated: terminal status iff results length equals assigned
length, and ended_at set once the lengths are equal. -/
def C1_claim : Prop :=
  ∀ s, Reachable s → ∀ k t, lookupKV s.tasks k = some t →
    ((task_terminal t ↔ t.results.length = t.assigned_agents.length) ∧
     (t.results.length = t.assigned_agents.length → t.ended_at.isSome = true))

/-- Claim C2 as stated: a device is offline iff its agent-id has no entry in
the connections map. -/
def C2_claim : Prop :=
  ∀ s, Reachable s → ∀ a d, lookupKV s.devices a = some d →
    (d.status = "offline" ↔ a ∉ s.connections)

/-- Claim C5 as stated: an emission matching the newest activity entry's kind
and agent-id within 30 s never appends; it bumps the timestamp and count. -/
def C5_claim : Prop :=
  ∀ s, Reachable s → ∀ kind aid msg now front rest,
    s.activity = front :: rest → front.kind = kind → front.agent_id = aid →
    now - front.ts ≤ ACTIVITY_DEDUPE_MS →
    (emit_activity s kind aid msg now).activity =
      { front with ts := now, count := some (front.count.getD 1 + 1) } :: rest

/- Concrete traces used by counterexamples and witnesses. -/

/-- Admin network facts used by the concrete traces. -/
def adm0 : NetworkFactsPayload :=
  { ip := "10.0.0.9", subnet_cidr := "10.0.0.0/24", default_gateway_ip := "10.0.0.1",
    interface_type := "ethernet", mac := none, gateway_mac := none,
    dhcp_server_ip := none, ssid := none, arp_snapshot := [] }

/-- An empty network payload (agents may omit every fact). -/
def net0 : NetworkFactsPayload :=
  { ip := "", subnet_cidr := "", default_gateway_ip := "", interface_type := "",
    mac := none, gateway_mac := none, dhcp_server_ip := none, ssid := none,
    arp_snapshot := [] }

/-- C1 trace: agents A and B register, a ping task is dispatched to A alone,
then B (not assigned) reports first and A second. -/
def evsC1 : List Ev :=
  [ Ev.register "A" "tok" "hostA" ["10.0.0.5"] "linux" "1.0" net0 1000,
    Ev.register "B" "tok" "hostB" ["10.0.0.6"] "linux" "1.0" net0 2000,
    Ev.dispatch ["A"] "ping" "target=1.1.1.1" "T1" 3000,
    Ev.task_result "B" { task_id := "T1", ok := true, result := "r", error := none } 4000,
    Ev.task_result "A" { task_id := "T1", ok := true, result := "r", error := none } 5000 ]

def sC1 : RuntimeState := runEvents "tok" adm0 evsC1

/-- The task record stored under "T1" in sC1: terminal with two results but a
single assigned agent. -/
def tC1 : TaskRecord :=
  { task_id := "T1", kind := "ping", params := "target=1.1.1.1",
    assigned_agents := ["A"], status := "done", created_at := 3000,
    started_at := some 3000, ended_at := some 4000,
    results :=
      [ { agent_id := "B", ok := true, result := "r", error := none, ts := 4000 },
        { agent_id := "A", ok := true, result := "r", error := none, ts := 5000 } ] }

/-- C2 trace: A registers at time 0 and the watchdog sweeps at 20001 ms,
flipping the state to offline while the connection entry remains. -/
def evsC2 : List Ev :=
  [ Ev.register "A" "tok" "hostA" ["10.0.0.5"] "linux" "1.0" net0 0,
    Ev.watchdog 20001 ]

def sC2 : RuntimeState := runEvents "tok" adm0 evsC2

/-- The device record stored for A in sC2. -/
def dC2 : DeviceRecord :=
  { agent_id := "A", hostname := "hostA", ips := ["10.0.0.5"], os := "linux",
    version := "1.0", status := "offline", last_seen_ms := 0,
    internet_reachable := none, dns_ok := none, gateway_reachable := none,
    latency_ms := none, last_internet_change_ms := none, last_dns_change_ms := none,
    first_seen_ms := 0, ip := some "10.0.0.5", subnet_cidr := some "10.0.0.0/24",
    default_gateway_ip := none, interface_type := none, mac := none,
    gateway_mac := none, dhcp_server_ip := none, ssid := none, arp_snapshot := [] }

/-- C5 trace: A registers at 0 (device_connected activity), then a heartbeat at
10000 changes the status, emitting a device_status_changed activity which also
stamps the per-agent activity rate limit at 10000. -/
def evsC5 : List Ev :=
  [ Ev.register "A" "tok" "hostA" ["10.0.0.5"] "linux" "1.0" net0 0,
    Ev.heartbeat "A"
      { status := "degraded", last_seen := 10000, metrics := none, network := net0 } 10000 ]

def sC5 : RuntimeState := runEvents "tok" adm0 evsC5

/-- The newest activity entry of sC5. -/
def actC5 : ActivityEvent :=
  { id := "", kind := "device_status_changed", agent_id := some "A",
    message := "hostA status online -> degraded", ts := 10000, count := none }

/-- A single register of A at time 0 (used by several witnesses). -/
def evsW : List Ev := [Ev.register "A" "tok" "hostA" ["10.0.0.5"] "linux" "1.0" net0 0]

def sW : RuntimeState := runEvents "tok" adm0 evsW

/-- The device record stored for A in sW. -/
def dW : DeviceRecord :=
  { dC2 with status := "online" }

/-- A small concrete state for the watchdog boundary witness. -/
def sC6 : RuntimeState :=
  { initState "tok" adm0 with devices := [("A", dW)] }

/-- A small concrete state for the task_result witness: task "T2" is assigned
to A only and has no results yet. -/
def tC9 : TaskRecord :=
  { task_id := "T2", kind := "ping", params := "target=1.1.1.1",
    assigned_agents := ["A"], status := "running", created_at := 0,
    started_at := some 0, ended_at := none, results := [] }

def sC9 : RuntimeState :=
  { initState "tok" adm0 with tasks := [("T2", tC9)] }

/-- A task_result payload from agent B for task T2 (B is not assigned). -/
def pC9 : TaskResultPayload :=
  { task_id := "T2", ok := true, result := "r", error := none }

/-- A heartbeat payload with an empty status and one metrics key. -/
def pHB : HeartbeatPayload :=
  { status := "", last_seen := 500,
    metrics := some { internet_reachable := some (some true), dns_ok := none,
                      gateway_reachable := none, latency_ms := none },
    network := net0 }

/-- A concrete activity entry without an agent-id (bypassing the rate limit). -/
def actW : ActivityEvent :=
  { id := "", kind := "task_started", agent_id := none, message := "m",
    ts := 100, count := none }

/-- A concrete state whose newest activity entry is actW. -/
def sC5w : RuntimeState :=
  { initState "tok" adm0 with activity := [actW] }

/- Association-list lemmas. -/

theorem lookupKV_insertKV {β : Type} (l : List (String × β)) (k k' : String) (v : β) :
    lookupKV (insertKV l k v) k' = if k = k' then some v else lookupKV l k' := by
  induction l with
  | nil => simp [insertKV, lookupKV]
  | cons kv rest ih =>
      obtain ⟨k2, v2⟩ := kv
      by_cases h2 : k2 = k
      · subst h2
        by_cases h3 : k2 = k'
        · subst h3
          simp [insertKV, lookupKV]
        · simp [insertKV, lookupKV, h3]
      · by_cases h3 : k2 = k'
        · subst h3
          have hkk : ¬ k = k2 := fun h => h2 h.symm
          simp [insertKV, lookupKV, h2, hkk]
        · simp [insertKV, lookupKV, h2, h3, ih]

theorem lookupKV_insertKV_self {β : Type} (l : List (String × β)) (k : String) (v : β) :
    lookupKV (insertKV l k v) k = some v := by
  simp [lookupKV_insertKV]

theorem lookupKV_insertKV_ne {β : Type} (l : List (String × β)) (k k' : String)
    (v : β) (h : k ≠ k') : lookupKV (insertKV l k v) k' = lookupKV l k' := by
  simp [lookupKV_insertKV, h]

theorem isSome_lookupKV_insertKV {β : Type} (l : List (String × β)) (k k' : String)
    (v : β) (h : (lookupKV l k').isSome = true) :
    (lookupKV (insertKV l k v) k').isSome = true := by
  rw [lookupKV_insertKV]
  split <;> simp [h]

theorem lookupKV_map_val {β γ : Type} (g : β → γ) (l : List (String × β)) (k : String) :
    lookupKV (l.map (fun kd => (kd.1, g kd.2))) k = (lookupKV l k).map g := by
  induction l with
  | nil => simp [lookupKV]
  | cons kv rest ih =>
      obtain ⟨k2, v2⟩ := kv
      by_cases h2 : k2 = k
      · subst h2
        simp [lookupKV]
      · simp [lookupKV, h2, ih]

theorem mem_conn_insert (l : List String) (a x : String) :
    x ∈ conn_insert l a ↔ x ∈ l ∨ x = a := by
  unfold conn_insert
  by_cases h : a ∈ l
  · simp only [if_pos h]
    constructor
    · exact Or.inl
    · rintro (hx | rfl)
      · exact hx
      · exact h
  · simp [if_neg h, List.mem_append]

theorem self_mem_conn_insert (l : List String) (a : String) : a ∈ conn_insert l a := by
  rw [mem_conn_insert]
  exact Or.inr rfl

/- Frame lemmas for the emission helpers: they only touch the fields they own. -/

theorem emit_log_devices (s : RuntimeState) (aid : Option String) (level message : String)
    (now : Int) : (emit_log s aid level message now).devices = s.devices := rfl

theorem emit_log_tasks (s : RuntimeState) (aid : Option String) (level message : String)
    (now : Int) : (emit_log s aid level message now).tasks = s.tasks := rfl

theorem emit_log_connections (s : RuntimeState) (aid : Option String)
    (level message : String) (now : Int) :
    (emit_log s aid level message now).connections = s.connections := rfl

theorem emit_log_device_order (s : RuntimeState) (aid : Option String)
    (level message : String) (now : Int) :
    (emit_log s aid level message now).device_order = s.device_order := rfl

theorem emit_log_topology_snapshot (s : RuntimeState) (aid : Option String)
    (level message : String) (now : Int) :
    (emit_log s aid level message now).topology_snapshot = s.topology_snapshot := rfl

theorem emit_log_topology_key (s : RuntimeState) (aid : Option String)
    (level message : String) (now : Int) :
    (emit_log s aid level message now).topology_key = s.topology_key := rfl

theorem emit_activity_devices (s : RuntimeState) (kind : String) (aid : Option String)
    (message : String) (now : Int) :
    (emit_activity s kind aid message now).devices = s.devices := rfl

theorem emit_activity_tasks (s : RuntimeState) (kind : String) (aid : Option String)
    (message : String) (now : Int) :
    (emit_activity s kind aid message now).tasks = s.tasks := rfl

theorem emit_activity_connections (s : RuntimeState) (kind : String) (aid : Option String)
    (message : String) (now : Int) :
    (emit_activity s kind aid message now).connections = s.connections := rfl

theorem emit_activity_device_order (s : RuntimeState) (kind : String) (aid : Option String)
    (message : String) (now : Int) :
    (emit_activity s kind aid message now).device_order = s.device_order := rfl

theorem emit_activity_topology_snapshot (s : RuntimeState) (kind : String)
    (aid : Option String) (message : String) (now : Int) :
    (emit_activity s kind aid message now).topology_snapshot = s.topology_snapshot := rfl

theorem emit_activity_topology_key (s : RuntimeState) (kind : String)
    (aid : Option String) (message : String) (now : Int) :
    (emit_activity s kind aid message now).topology_key = s.topology_key := rfl

theorem emit_upsert_devices (s : RuntimeState) (agentId : String) (force : Bool)
    (now : Int) :
    (emit_device_upsert_if_needed s agentId force now).devices = s.devices := rfl

theorem emit_upsert_tasks (s : RuntimeState) (agentId : String) (force : Bool)
    (now : Int) : (emit_device_upsert_if_needed s agentId force now).tasks = s.tasks := rfl

theorem emit_upsert_connections (s : RuntimeState) (agentId : String) (force : Bool)
    (now : Int) :
    (emit_device_upsert_if_needed s agentId force now).connections = s.connections := rfl

theorem emit_upsert_device_order (s : RuntimeState) (agentId : String) (force : Bool)
    (now : Int) :
    (emit_device_upsert_if_needed s agentId force now).device_order = s.device_order := rfl

theorem emit_upsert_topology_snapshot (s : RuntimeState) (agentId : String) (force : Bool)
    (now : Int) :
    (emit_device_upsert_if_needed s agentId force now).topology_snapshot
      = s.topology_snapshot := rfl

theorem emit_upsert_topology_key (s : RuntimeState) (agentId : String) (force : Bool)
    (now : Int) :
    (emit_device_upsert_if_needed s agentId force now).topology_key = s.topology_key := rfl

theorem rebuild_devices (s : RuntimeState) (now : Int) :
    (rebuild_topology_if_changed s now).devices = s.devices := by
  unfold rebuild_topology_if_changed
  dsimp only
  split <;> rfl

theorem rebuild_tasks (s : RuntimeState) (now : Int) :
    (rebuild_topology_if_changed s now).tasks = s.tasks := by
  unfold rebuild_topology_if_changed
  dsimp only
  split <;> rfl

theorem rebuild_connections (s : RuntimeState) (now : Int) :
    (rebuild_topology_if_changed s now).connections = s.connections := by
  unfold rebuild_topology_if_changed
  dsimp only
  split <;> rfl

theorem rebuild_device_order (s : RuntimeState) (now : Int) :
    (rebuild_topology_if_changed s now).device_order = s.device_order := by
  unfold rebuild_topology_if_changed
  dsimp only
  split <;> rfl

theorem rebuild_activity (s : RuntimeState) (now : Int) :
    (rebuild_topology_if_changed s now).activity = s.activity := by
  unfold rebuild_topology_if_changed
  dsimp only
  split <;> rfl

/- Characterizations of the per-frame step functions. -/

theorem register_step_bad_secret (s : RuntimeState) (a secret hostname : String)
    (ips : List String) (os ver : String) (net : NetworkFactsPayload) (now : Int)
    (h : secret ≠ s.pair_token) :
    register_step s a secret hostname ips os ver net now = s := by
  unfold register_step
  rw [if_neg h]

theorem register_step_tasks (s : RuntimeState) (a secret hostname : String)
    (ips : List String) (os ver : String) (net : NetworkFactsPayload) (now : Int) :
    (register_step s a secret hostname ips os ver net now).tasks = s.tasks := by
  unfold register_step
  by_cases h : secret = s.pair_token
  · rw [if_pos h]
    dsimp only
    rw [rebuild_tasks]
    repeat' split
    all_goals rfl
  · rw [if_neg h]

theorem register_step_connections (s : RuntimeState) (a secret hostname : String)
    (ips : List String) (os ver : String) (net : NetworkFactsPayload) (now : Int)
    (h : secret = s.pair_token) :
    (register_step s a secret hostname ips os ver net now).connections
      = conn_insert s.connections a := by
  unfold register_step
  rw [if_pos h]
  dsimp only
  rw [rebuild_connections]
  repeat' split
  all_goals rfl

theorem register_step_devices (s : RuntimeState) (a secret hostname : String)
    (ips : List String) (os ver : String) (net : NetworkFactsPayload) (now : Int)
    (h : secret = s.pair_token) :
    (register_step s a secret hostname ips os ver net now).devices
      = insertKV s.devices a
          (register_device_update
            ((lookupKV s.devices a).getD (fresh_device a hostname ips os ver now))
            hostname ips os ver net now) := by
  unfold register_step
  rw [if_pos h]
  dsimp only
  rw [rebuild_devices]
  repeat' split
  all_goals rfl

theorem register_step_device_order (s : RuntimeState) (a secret hostname : String)
    (ips : List String) (os ver : String) (net : NetworkFactsPayload) (now : Int)
    (h : secret = s.pair_token) :
    (register_step s a secret hostname ips os ver net now).device_order
      = if (lookupKV s.devices a).isNone then s.device_order ++ [a]
        else s.device_order := by
  unfold register_step
  rw [if_pos h]
  dsimp only
  rw [rebuild_device_order]
  repeat' split
  all_goals rfl

theorem heartbeat_step_none (s : RuntimeState) (a : String) (p : HeartbeatPayload)
    (now : Int) (hl : lookupKV s.devices a = none) :
    heartbeat_step s a p now = s := by
  unfold heartbeat_step
  rw [hl]

theorem heartbeat_step_devices (s : RuntimeState) (a : String) (p : HeartbeatPayload)
    (now : Int) (d : DeviceRecord) (hl : lookupKV s.devices a = some d) :
    (heartbeat_step s a p now).devices
      = insertKV s.devices a (heartbeat_device_update d p now) := by
  unfold heartbeat_step
  rw [hl]
  dsimp only
  rw [rebuild_devices]
  repeat' split
  all_goals rfl

theorem heartbeat_step_tasks (s : RuntimeState) (a : String) (p : HeartbeatPayload)
    (now : Int) : (heartbeat_step s a p now).tasks = s.tasks := by
  unfold heartbeat_step
  cases hl : lookupKV s.devices a with
  | none => rfl
  | some d =>
      dsimp only
      rw [rebuild_tasks]
      repeat' split
      all_goals rfl

theorem heartbeat_step_connections (s : RuntimeState) (a : String) (p : HeartbeatPayload)
    (now : Int) : (heartbeat_step s a p now).connections = s.connections := by
  unfold heartbeat_step
  cases hl : lookupKV s.devices a with
  | none => rfl
  | some d =>
      dsimp only
      rw [rebuild_connections]
      repeat' split
      all_goals rfl

theorem heartbeat_step_device_order (s : RuntimeState) (a : String)
    (p : HeartbeatPayload) (now : Int) :
    (heartbeat_step s a p now).device_order = s.device_order := by
  unfold heartbeat_step
  cases hl : lookupKV s.devices a with
  | none => rfl
  | some d =>
      dsimp only
      rw [rebuild_device_order]
      repeat' split
      all_goals rfl

theorem task_result_step_none (s : RuntimeState) (a : String) (p : TaskResultPayload)
    (now : Int) (hl : lookupKV s.tasks p.task_id = none) :
    task_result_step s a p now = s := by
  unfold task_result_step
  rw [hl]

theorem task_result_step_tasks (s : RuntimeState) (a : String) (p : TaskResultPayload)
    (now : Int) (task : TaskRecord) (hl : lookupKV s.tasks p.task_id = some task) :
    (task_result_step s a p now).tasks
      = insertKV s.tasks p.task_id (task_result_update task a p now) := by
  unfold task_result_step
  rw [hl]
  rfl

theorem task_result_step_devices (s : RuntimeState) (a : String) (p : TaskResultPayload)
    (now : Int) : (task_result_step s a p now).devices = s.devices := by
  unfold task_result_step
  cases hl : lookupKV s.tasks p.task_id <;> rfl

theorem task_result_step_connections (s : RuntimeState) (a : String)
    (p : TaskResultPayload) (now : Int) :
    (task_result_step s a p now).connections = s.connections := by
  unfold task_result_step
  cases hl : lookupKV s.tasks p.task_id <;> rfl

theorem task_result_step_device_order (s : RuntimeState) (a : String)
    (p : TaskResultPayload) (now : Int) :
    (task_result_step s a p now).device_order = s.device_order := by
  unfold task_result_step
  cases hl : lookupKV s.tasks p.task_id <;> rfl

theorem task_result_step_topology_snapshot (s : RuntimeState) (a : String)
    (p : TaskResultPayload) (now : Int) :
    (task_result_step s a p now).topology_snapshot = s.topology_snapshot := by
  unfold task_result_step
  cases hl : lookupKV s.tasks p.task_id <;> rfl

theorem on_agent_disconnect_connections (s : RuntimeState) (a : String) (now : Int) :
    (on_agent_disconnect s a now).connections
      = s.connections.filter (fun x => x ≠ a) := by
  unfold on_agent_disconnect
  dsimp only
  cases hl : lookupKV s.devices a with
  | none =>
      rw [rebuild_connections]
  | some d =>
      dsimp only
      rw [rebuild_connections]
      rfl

theorem on_agent_disconnect_devices_some (s : RuntimeState) (a : String) (now : Int)
    (d : DeviceRecord) (hl : lookupKV s.devices a = some d) :
    (on_agent_disconnect s a now).devices
      = insertKV s.devices a { d with status := "offline", last_seen_ms := now } := by
  unfold on_agent_disconnect
  dsimp only
  rw [hl]
  dsimp only
  rw [rebuild_devices]
  rfl

theorem on_agent_disconnect_devices_none (s : RuntimeState) (a : String) (now : Int)
    (hl : lookupKV s.devices a = none) :
    (on_agent_disconnect s a now).devices = s.devices := by
  unfold on_agent_disconnect
  dsimp only
  rw [hl]
  rw [rebuild_devices]

theorem on_agent_disconnect_tasks (s : RuntimeState) (a : String) (now : Int) :
    (on_agent_disconnect s a now).tasks = s.tasks := by
  unfold on_agent_disconnect
  dsimp only
  cases hl : lookupKV s.devices a <;> (dsimp only; rw [rebuild_tasks]) <;> rfl

theorem on_agent_disconnect_device_order (s : RuntimeState) (a : String) (now : Int) :
    (on_agent_disconnect s a now).device_order = s.device_order := by
  unfold on_agent_disconnect
  dsimp only
  cases hl : lookupKV s.devices a <;> (dsimp only; rw [rebuild_device_order]) <;> rfl

theorem watchdog_notify_devices (now : Int) (st : RuntimeState) (id : String) :
    (watchdog_notify now st id).devices = st.devices := by
  unfold watchdog_notify
  cases hl : lookupKV st.devices id <;> rfl

theorem watchdog_notify_tasks (now : Int) (st : RuntimeState) (id : String) :
    (watchdog_notify now st id).tasks = st.tasks := by
  unfold watchdog_notify
  cases hl : lookupKV st.devices id <;> rfl

theorem watchdog_notify_connections (now : Int) (st : RuntimeState) (id : String) :
    (watchdog_notify now st id).connections = st.connections := by
  unfold watchdog_notify
  cases hl : lookupKV st.devices id <;> rfl

theorem watchdog_notify_device_order (now : Int) (st : RuntimeState) (id : String) :
    (watchdog_notify now st id).device_order = st.device_order := by
  unfold watchdog_notify
  cases hl : lookupKV st.devices id <;> rfl

theorem watchdog_notify_topology_snapshot (now : Int) (st : RuntimeState) (id : String) :
    (watchdog_notify now st id).topology_snapshot = st.topology_snapshot := by
  unfold watchdog_notify
  cases hl : lookupKV st.devices id <;> rfl

theorem watchdog_notify_topology_key (now : Int) (st : RuntimeState) (id : String) :
    (watchdog_notify now st id).topology_key = st.topology_key := by
  unfold watchdog_notify
  cases hl : lookupKV st.devices id <;> rfl

theorem watchdog_fold_devices (now : Int) :
    ∀ (ids : List String) (st : RuntimeState),
      (ids.foldl (watchdog_notify now) st).devices = st.devices := by
  intro ids
  induction ids with
  | nil => intro st; rfl
  | cons id rest ih =>
      intro st
      simp only [List.foldl_cons, ih, watchdog_notify_devices]

theorem watchdog_fold_tasks (now : Int) :
    ∀ (ids : List String) (st : RuntimeState),
      (ids.foldl (watchdog_notify now) st).tasks = st.tasks := by
  intro ids
  induction ids with
  | nil => intro st; rfl
  | cons id rest ih =>
      intro st
      simp only [List.foldl_cons, ih, watchdog_notify_tasks]

theorem watchdog_fold_connections (now : Int) :
    ∀ (ids : List String) (st : RuntimeState),
      (ids.foldl (watchdog_notify now) st).connections = st.connections := by
  intro ids
  induction ids with
  | nil => intro st; rfl
  | cons id rest ih =>
      intro st
      simp only [List.foldl_cons, ih, watchdog_notify_connections]

theorem watchdog_fold_device_order (now : Int) :
    ∀ (ids : List String) (st : RuntimeState),
      (ids.foldl (watchdog_notify now) st).device_order = st.device_order := by
  intro ids
  induction ids with
  | nil => intro st; rfl
  | cons id rest ih =>
      intro st
      simp only [List.foldl_cons, ih, watchdog_notify_device_order]

theorem watchdog_fold_topology_snapshot (now : Int) :
    ∀ (ids : List String) (st : RuntimeState),
      (ids.foldl (watchdog_notify now) st).topology_snapshot = st.topology_snapshot := by
  intro ids
  induction ids with
  | nil => intro st; rfl
  | cons id rest ih =>
      intro st
      simp only [List.foldl_cons, ih, watchdog_notify_topology_snapshot]

theorem watchdog_fold_topology_key (now : Int) :
    ∀ (ids : List String) (st : RuntimeState),
      (ids.foldl (watchdog_notify now) st).topology_key = st.topology_key := by
  intro ids
  induction ids with
  | nil => intro st; rfl
  | cons id rest ih =>
      intro st
      simp only [List.foldl_cons, ih, watchdog_notify_topology_key]

theorem heartbeat_watchdog_step_devices (s : RuntimeState) (now : Int) :
    (heartbeat_watchdog_step s now).devices
      = s.devices.map (fun kd => (kd.1, watchdog_update now kd.2)) := by
  unfold heartbeat_watchdog_step
  dsimp only
  rw [watchdog_fold_devices]

theorem heartbeat_watchdog_step_tasks (s : RuntimeState) (now : Int) :
    (heartbeat_watchdog_step s now).tasks = s.tasks := by
  unfold heartbeat_watchdog_step
  dsimp only
  rw [watchdog_fold_tasks]

theorem heartbeat_watchdog_step_connections (s : RuntimeState) (now : Int) :
    (heartbeat_watchdog_step s now).connections = s.connections := by
  unfold heartbeat_watchdog_step
  dsimp only
  rw [watchdog_fold_connections]

theorem heartbeat_watchdog_step_device_order (s : RuntimeState) (now : Int) :
    (heartbeat_watchdog_step s now).device_order = s.device_order := by
  unfold heartbeat_watchdog_step
  dsimp only
  rw [watchdog_fold_device_order]

theorem heartbeat_watchdog_step_topology_snapshot (s : RuntimeState) (now : Int) :
    (heartbeat_watchdog_step s now).topology_snapshot = s.topology_snapshot := by
  unfold heartbeat_watchdog_step
  dsimp only
  rw [watchdog_fold_topology_snapshot]

theorem heartbeat_watchdog_step_topology_key (s : RuntimeState) (now : Int) :
    (heartbeat_watchdog_step s now).topology_key = s.topology_key := by
  unfold heartbeat_watchdog_step
  dsimp only
  rw [watchdog_fold_topology_key]

theorem dispatch_task_snd_devices (s : RuntimeState) (agents : List String)
    (kind : String) (params : JsonValue) (task_id : String) (now : Int) :
    ((dispatch_task s agents kind params task_id now).2).devices = s.devices := by
  unfold dispatch_task
  repeat' split
  all_goals rfl

theorem dispatch_task_snd_connections (s : RuntimeState) (agents : List String)
    (kind : String) (params : JsonValue) (task_id : String) (now : Int) :
    ((dispatch_task s agents kind params task_id now).2).connections = s.connections := by
  unfold dispatch_task
  repeat' split
  all_goals rfl

theorem dispatch_task_snd_device_order (s : RuntimeState) (agents : List String)
    (kind : String) (params : JsonValue) (task_id : String) (now : Int) :
    ((dispatch_task s agents kind params task_id now).2).device_order = s.device_order := by
  unfold dispatch_task
  repeat' split
  all_goals rfl

theorem dispatch_task_snd_topology_snapshot (s : RuntimeState) (agents : List String)
    (kind : String) (params : JsonValue) (task_id : String) (now : Int) :
    ((dispatch_task s agents kind params task_id now).2).topology_snapshot
      = s.topology_snapshot := by
  unfold dispatch_task
  repeat' split
  all_goals rfl

theorem rotate_pair_token_devices (s : RuntimeState) (tok : String) (now : Int) :
    (rotate_pair_token s tok now).devices = s.devices := rfl

theorem rotate_pair_token_tasks (s : RuntimeState) (tok : String) (now : Int) :
    (rotate_pair_token s tok now).tasks = s.tasks := rfl

theorem rotate_pair_token_connections (s : RuntimeState) (tok : String) (now : Int) :
    (rotate_pair_token s tok now).connections = s.connections := rfl

theorem rotate_pair_token_device_order (s : RuntimeState) (tok : String) (now : Int) :
    (rotate_pair_token s tok now).device_order = s.device_order := rfl

/- The task invariant. -/

theorem length_le_filter_succ (a : String) :
    ∀ l : List TaskResultRecord, (l.map (fun r => r.agent_id)).Nodup →
      l.length ≤ (l.filter (fun r => r.agent_id ≠ a)).length + 1 := by
  intro l
  induction l with
  | nil => simp
  | cons x xs ih =>
      intro h
      simp only [List.map_cons, List.nodup_cons] at h
      obtain ⟨hx, hxs⟩ := h
      by_cases hfa : x.agent_id = a
      · have hall : xs.filter (fun r => r.agent_id ≠ a) = xs := by
          apply List.filter_eq_self.mpr
          intro y hy
          have hne : y.agent_id ≠ a := by
            intro hya
            apply hx
            rw [hfa, ← hya]
            exact List.mem_map_of_mem (fun r => r.agent_id) hy
          simpa using hne
        rw [List.filter_cons]
        have hpx : decide (x.agent_id ≠ a) = false := by simpa using hfa
        rw [hpx]
        simp only [Bool.false_eq_true, if_false, hall, List.length_cons]
        omega
      · have hx2 := ih hxs
        rw [List.filter_cons]
        have hpx : decide (x.agent_id ≠ a) = true := by simpa using hfa
        rw [hpx]
        simp only [if_true, List.length_cons]
        omega

theorem nodup_filter_append (a : String) (p : TaskResultPayload) (now : Int)
    (l : List TaskResultRecord) (h : (l.map (fun r => r.agent_id)).Nodup) :
    ((l.filter (fun r => r.agent_id ≠ a) ++ [mk_result a p now]).map
      (fun r => r.agent_id)).Nodup := by
  rw [List.map_append]
  have hsingle : ([mk_result a p now].map (fun r => r.agent_id)) = [a] := rfl
  rw [hsingle]
  apply List.Nodup.append
  · exact h.sublist (List.Sublist.map (fun r => r.agent_id) (List.filter_sublist l))
  · exact List.nodup_singleton a
  · intro b hb hb2
    simp only [List.mem_singleton] at hb2
    subst hb2
    obtain ⟨x, hx, hfx⟩ := List.mem_map.mp hb
    have hmem := List.of_mem_filter hx
    simp only [decide_not, Bool.not_eq_true', decide_eq_false_iff_not] at hmem
    exact hmem hfx

theorem task_ok_update (task : TaskRecord) (a : String) (p : TaskResultPayload)
    (now : Int) (h : task_ok task) : task_ok (task_result_update task a p now) := by
  obtain ⟨h1, h2, h3, h4⟩ := h
  have hle : (task.results.filter (fun r => r.agent_id ≠ a)).length
      ≤ task.results.length := List.length_filter_le _ _
  have hge := length_le_filter_succ a task.results h4
  have hnodup := nodup_filter_append a p now task.results h4
  have hL1 : (task.results.filter (fun r => r.agent_id ≠ a) ++
      [mk_result a p now]).length
      = (task.results.filter (fun r => r.agent_id ≠ a)).length + 1 := by
    rw [List.length_append, List.length_singleton]
  unfold task_result_update
  dsimp only
  split
  · rename_i hc
    refine ⟨h1, ?_, ?_, ?_⟩
    · constructor
      · intro _
        rw [hc]
      · intro _
        simp only [task_terminal]
        split <;> simp
    · intro _
      rfl
    · exact hnodup
  · rename_i hc
    refine ⟨h1, ?_, ?_, ?_⟩
    · simp only [task_terminal] at h2 ⊢
      rw [hL1] at hc ⊢
      constructor
      · intro ht
        have hn := h2.mp ht
        omega
      · intro hn1
        apply h2.mpr
        by_contra hnn
        omega
    · intro ht
      have ht2 : task_terminal task := by
        simpa [task_terminal] using ht
      exact h3 ht2
    · exact hnodup

theorem task_ok_of_fresh (t : TaskRecord) (h1 : 1 ≤ t.assigned_agents.length)
    (hs : t.status = "queued" ∨ t.status = "running") (hr : t.results = []) :
    task_ok t := by
  have hs1 : t.status ≠ "done" := by
    rcases hs with h' | h' <;> rw [h'] <;> decide
  have hs2 : t.status ≠ "failed" := by
    rcases hs with h' | h' <;> rw [h'] <;> decide
  refine ⟨h1, ?_, ?_, ?_⟩
  · constructor
    · intro ht
      rcases ht with h' | h'
      · exact absurd h' hs1
      · exact absurd h' hs2
    · intro hn
      exfalso
      rw [hr] at hn
      simp only [List.length_nil, Nat.le_zero] at hn
      omega
  · intro ht
    rcases ht with h' | h'
    · exact absurd h' hs1
    · exact absurd h' hs2
  · rw [hr]
    simp

theorem tasks_inv_step (s : RuntimeState) (ev : Ev) (h : TasksInv s) :
    TasksInv (step s ev) := by
  cases ev with
  | register a secret hostname ips os ver net now =>
      intro k t ht
      simp only [step, register_step_tasks] at ht
      exact h k t ht
  | heartbeat a p now =>
      intro k t ht
      simp only [step, heartbeat_step_tasks] at ht
      exact h k t ht
  | task_result a p now =>
      intro k t ht
      simp only [step] at ht
      cases hl : lookupKV s.tasks p.task_id with
      | none =>
          rw [task_result_step_none s a p now hl] at ht
          exact h k t ht
      | some task =>
          rw [task_result_step_tasks s a p now task hl, lookupKV_insertKV] at ht
          by_cases hk : p.task_id = k
          · rw [if_pos hk] at ht
            obtain rfl := Option.some.inj ht
            exact task_ok_update task a p now (h _ task hl)
          · rw [if_neg hk] at ht
            exact h k t ht
  | disconnect a now =>
      intro k t ht
      simp only [step, on_agent_disconnect_tasks] at ht
      exact h k t ht
  | watchdog now =>
      intro k t ht
      simp only [step, heartbeat_watchdog_step_tasks] at ht
      exact h k t ht
  | dispatch agents kind params task_id now =>
      intro k t ht
      simp only [step] at ht
      unfold dispatch_task at ht
      by_cases hA : agents = []
      · rw [if_pos hA] at ht
        exact h k t ht
      · rw [if_neg hA] at ht
        by_cases hK : kind = "ping" ∨ kind = "port_scan" ∨ kind = "arp_snapshot"
        · rw [if_neg (not_not_intro hK)] at ht
          dsimp only at ht
          simp only [emit_activity_tasks] at ht
          rw [lookupKV_insertKV] at ht
          have hlen : 1 ≤ agents.length := by
            have := List.length_pos.mpr hA
            omega
          by_cases hk : task_id = k
          · rw [if_pos hk] at ht
            obtain rfl := Option.some.inj ht
            split
            · exact task_ok_of_fresh _ hlen (Or.inr rfl) rfl
            · exact task_ok_of_fresh _ hlen (Or.inl rfl) rfl
          · rw [if_neg hk] at ht
            exact h k t ht
        · rw [if_pos hK] at ht
          exact h k t ht
  | rotate token now =>
      intro k t ht
      simp only [step, rotate_pair_token_tasks] at ht
      exact h k t ht
  | set_online b =>
      intro k t ht
      exact h k t ht

theorem tasks_inv_run (evs : List Ev) :
    ∀ s, TasksInv s → TasksInv (evs.foldl step s) := by
  induction evs with
  | nil => intro s h; exact h
  | cons ev rest ih =>
      intro s h
      exact ih (step s ev) (tasks_inv_step s ev h)

theorem tasks_inv_init (token : String) (admin : NetworkFactsPayload) :
    TasksInv (initState token admin) := by
  intro k t ht
  simp [initState, lookupKV] at ht

theorem tasks_inv_reachable (s : RuntimeState) (h : Reachable s) : TasksInv s := by
  obtain ⟨token, admin, evs, rfl⟩ := h
  exact tasks_inv_run evs (initState token admin) (tasks_inv_init token admin)

/- The connections / devices invariant. -/

theorem isSome_map {α β : Type} (f : α → β) (o : Option α) :
    (o.map f).isSome = o.isSome := by
  cases o <;> rfl

theorem conn_inv_step (s : RuntimeState) (ev : Ev) (h : ConnInv s) :
    ConnInv (step s ev) := by
  cases ev with
  | register a secret hostname ips os ver net now =>
      intro x hx
      simp only [step] at hx ⊢
      by_cases hsec : secret = s.pair_token
      · rw [register_step_connections s a secret hostname ips os ver net now hsec] at hx
        rw [register_step_devices s a secret hostname ips os ver net now hsec]
        rw [mem_conn_insert] at hx
        rcases hx with hx | rfl
        · exact isSome_lookupKV_insertKV _ _ _ _ (h x hx)
        · rw [lookupKV_insertKV_self]
          rfl
      · rw [register_step_bad_secret s a secret hostname ips os ver net now hsec] at hx ⊢
        exact h x hx
  | heartbeat a p now =>
      intro x hx
      simp only [step, heartbeat_step_connections] at hx
      simp only [step]
      cases hl : lookupKV s.devices a with
      | none =>
          rw [heartbeat_step_none s a p now hl]
          exact h x hx
      | some d =>
          rw [heartbeat_step_devices s a p now d hl]
          exact isSome_lookupKV_insertKV _ _ _ _ (h x hx)
  | task_result a p now =>
      intro x hx
      simp only [step, task_result_step_connections] at hx
      simp only [step, task_result_step_devices]
      exact h x hx
  | disconnect a now =>
      intro x hx
      simp only [step, on_agent_disconnect_connections] at hx
      have hx2 : x ∈ s.connections := (List.mem_filter.mp hx).1
      simp only [step]
      cases hl : lookupKV s.devices a with
      | none =>
          rw [on_agent_disconnect_devices_none s a now hl]
          exact h x hx2
      | some d =>
          rw [on_agent_disconnect_devices_some s a now d hl]
          exact isSome_lookupKV_insertKV _ _ _ _ (h x hx2)
  | watchdog now =>
      intro x hx
      simp only [step, heartbeat_watchdog_step_connections] at hx
      simp only [step, heartbeat_watchdog_step_devices]
      rw [lookupKV_map_val, isSome_map]
      exact h x hx
  | dispatch agents kind params task_id now =>
      intro x hx
      simp only [step, dispatch_task_snd_connections] at hx
      simp only [step, dispatch_task_snd_devices]
      exact h x hx
  | rotate token now =>
      intro x hx
      simp only [step, rotate_pair_token_connections] at hx
      simp only [step, rotate_pair_token_devices]
      exact h x hx
  | set_online b =>
      intro x hx
      exact h x hx

theorem conn_inv_run (evs : List Ev) :
    ∀ s, ConnInv s → ConnInv (evs.foldl step s) := by
  induction evs with
  | nil => intro s h; exact h
  | cons ev rest ih =>
      intro s h
      exact ih (step s ev) (conn_inv_step s ev h)

theorem conn_inv_init (token : String) (admin : NetworkFactsPayload) :
    ConnInv (initState token admin) := by
  intro x hx
  simp [initState] at hx

theorem conn_inv_reachable (s : RuntimeState) (h : Reachable s) : ConnInv s := by
  obtain ⟨token, admin, evs, rfl⟩ := h
  exact conn_inv_run evs (initState token admin) (conn_inv_init token admin)

/- The device_order invariant. -/

theorem order_inv_step (s : RuntimeState) (ev : Ev) (h : OrderInv s) :
    OrderInv (step s ev) := by
  obtain ⟨hnd, hmem⟩ := h
  cases ev with
  | register a secret hostname ips os ver net now =>
      by_cases hsec : secret = s.pair_token
      · constructor
        · simp only [step]
          rw [register_step_device_order s a secret hostname ips os ver net now hsec]
          split
          · rename_i hnone
            have hna : a ∉ s.device_order := by
              intro hin
              have hsome := hmem a hin
              rw [Option.isNone_iff_eq_none.mp hnone] at hsome
              simp at hsome
            apply List.Nodup.append hnd (List.nodup_singleton a)
            intro b hb hb2
            simp only [List.mem_singleton] at hb2
            subst hb2
            exact hna hb
          · exact hnd
        · intro x hx
          simp only [step] at hx ⊢
          rw [register_step_device_order s a secret hostname ips os ver net now hsec] at hx
          rw [register_step_devices s a secret hostname ips os ver net now hsec]
          by_cases hxa : x = a
          · subst hxa
            rw [lookupKV_insertKV_self]
            rfl
          · have hx2 : x ∈ s.device_order := by
              split at hx
              · rcases List.mem_append.mp hx with hx | hx
                · exact hx
                · rw [List.mem_singleton] at hx
                  exact absurd hx hxa
              · exact hx
            exact isSome_lookupKV_insertKV _ _ _ _ (hmem x hx2)
      · simp only [step]
        rw [register_step_bad_secret s a secret hostname ips os ver net now hsec]
        exact ⟨hnd, hmem⟩
  | heartbeat a p now =>
      constructor
      · simp only [step, heartbeat_step_device_order]
        exact hnd
      · intro x hx
        simp only [step, heartbeat_step_device_order] at hx
        simp only [step]
        cases hl : lookupKV s.devices a with
        | none =>
            rw [heartbeat_step_none s a p now hl]
            exact hmem x hx
        | some d =>
            rw [heartbeat_step_devices s a p now d hl]
            exact isSome_lookupKV_insertKV _ _ _ _ (hmem x hx)
  | task_result a p now =>
      constructor
      · simp only [step, task_result_step_device_order]
        exact hnd
      · intro x hx
        simp only [step, task_result_step_device_order] at hx
        simp only [step, task_result_step_devices]
        exact hmem x hx
  | disconnect a now =>
      constructor
      · simp only [step, on_agent_disconnect_device_order]
        exact hnd
      · intro x hx
        simp only [step, on_agent_disconnect_device_order] at hx
        simp only [step]
        cases hl : lookupKV s.devices a with
        | none =>
            rw [on_agent_disconnect_devices_none s a now hl]
            exact hmem x hx
        | some d =>
            rw [on_agent_disconnect_devices_some s a now d hl]
            exact isSome_lookupKV_insertKV _ _ _ _ (hmem x hx)
  | watchdog now =>
      constructor
      · simp only [step, heartbeat_watchdog_step_device_order]
        exact hnd
      · intro x hx
        simp only [step, heartbeat_watchdog_step_device_order] at hx
        simp only [step, heartbeat_watchdog_step_devices]
        rw [lookupKV_map_val, isSome_map]
        exact hmem x hx
  | dispatch agents kind params task_id now =>
      constructor
      · simp only [step, dispatch_task_snd_device_order]
        exact hnd
      · intro x hx
        simp only [step, dispatch_task_snd_device_order] at hx
        simp only [step, dispatch_task_snd_devices]
        exact hmem x hx
  | rotate token now =>
      constructor
      · simp only [step, rotate_pair_token_device_order]
        exact hnd
      · intro x hx
        simp only [step, rotate_pair_token_device_order] at hx
        simp only [step, rotate_pair_token_devices]
        exact hmem x hx
  | set_online b =>
      exact ⟨hnd, hmem⟩

theorem order_inv_run (evs : List Ev) :
    ∀ s, OrderInv s → OrderInv (evs.foldl step s) := by
  induction evs with
  | nil => intro s h; exact h
  | cons ev rest ih =>
      intro s h
      exact ih (step s ev) (order_inv_step s ev h)

theorem order_inv_init (token : String) (admin : NetworkFactsPayload) :
    OrderInv (initState token admin) := by
  constructor
  · simp [initState]
  · intro x hx
    simp [initState] at hx

theorem order_inv_reachable (s : RuntimeState) (h : Reachable s) : OrderInv s := by
  obtain ⟨token, admin, evs, rfl⟩ := h
  exact order_inv_run evs (initState token admin) (order_inv_init token admin)

/- Topology rebuild machinery. -/

theorem build_topology_snapshot_revision (devices : List (String × DeviceRecord))
    (device_order : List String) (admin : NetworkFactsPayload) (revision : Nat)
    (now : Int) :
    (build_topology_snapshot devices device_order admin revision now).revision
      = revision := rfl

theorem topology_candidate_revision (s : RuntimeState) (now : Int) :
    (topology_candidate s now).revision = s.topology_snapshot.revision + 1 := rfl

theorem rebuild_eq_of_key_eq (s : RuntimeState) (now : Int)
    (h : topology_key (topology_candidate s now) = s.topology_key) :
    rebuild_topology_if_changed s now = s := by
  unfold rebuild_topology_if_changed
  dsimp only
  rw [if_neg (not_not_intro h)]

theorem rebuild_eq_of_key_ne (s : RuntimeState) (now : Int)
    (h : topology_key (topology_candidate s now) ≠ s.topology_key) :
    rebuild_topology_if_changed s now =
      { s with topology_key := topology_key (topology_candidate s now),
               topology_snapshot := topology_candidate s now,
               topology_emits := topology_candidate s now :: s.topology_emits } := by
  unfold rebuild_topology_if_changed
  dsimp only
  rw [if_pos h]

theorem rebuild_rev_facts (s X : RuntimeState) (now : Int)
    (hsnap : X.topology_snapshot = s.topology_snapshot)
    (hkey : X.topology_key = s.topology_key) :
    s.topology_snapshot.revision
      ≤ (rebuild_topology_if_changed X now).topology_snapshot.revision ∧
    ((rebuild_topology_if_changed X now).topology_snapshot.revision
        ≠ s.topology_snapshot.revision →
      (rebuild_topology_if_changed X now).topology_key ≠ s.topology_key) := by
  by_cases h : topology_key (topology_candidate X now) = X.topology_key
  · rw [rebuild_eq_of_key_eq X now h, hsnap, hkey]
    exact ⟨Nat.le_refl _, fun hne => absurd rfl hne⟩
  · rw [rebuild_eq_of_key_ne X now h]
    constructor
    · show s.topology_snapshot.revision ≤ (topology_candidate X now).revision
      rw [topology_candidate_revision, hsnap]
      omega
    · intro _
      show topology_key (topology_candidate X now) ≠ s.topology_key
      rw [← hkey]
      exact h

theorem register_step_topology (s : RuntimeState) (a secret hostname : String)
    (ips : List String) (os ver : String) (net : NetworkFactsPayload) (now : Int)
    (hsec : secret = s.pair_token) :
    ∃ X : RuntimeState,
      register_step s a secret hostname ips os ver net now
          = rebuild_topology_if_changed X now
        ∧ X.topology_snapshot = s.topology_snapshot
        ∧ X.topology_key = s.topology_key := by
  unfold register_step
  rw [if_pos hsec]
  dsimp only
  refine ⟨_, rfl, ?_, ?_⟩
  · repeat' split
    all_goals rfl
  · repeat' split
    all_goals rfl

theorem heartbeat_step_topology (s : RuntimeState) (a : String) (p : HeartbeatPayload)
    (now : Int) (d : DeviceRecord) (hl : lookupKV s.devices a = some d) :
    ∃ X : RuntimeState,
      heartbeat_step s a p now = rebuild_topology_if_changed X now
        ∧ X.topology_snapshot = s.topology_snapshot
        ∧ X.topology_key = s.topology_key := by
  unfold heartbeat_step
  rw [hl]
  dsimp only
  refine ⟨_, rfl, ?_, ?_⟩
  · repeat' split
    all_goals rfl
  · repeat' split
    all_goals rfl

theorem on_agent_disconnect_topology (s : RuntimeState) (a : String) (now : Int) :
    ∃ X : RuntimeState,
      on_agent_disconnect s a now = rebuild_topology_if_changed X now
        ∧ X.topology_snapshot = s.topology_snapshot
        ∧ X.topology_key = s.topology_key := by
  unfold on_agent_disconnect
  dsimp only
  cases hl : lookupKV s.devices a with
  | none => exact ⟨_, rfl, rfl, rfl⟩
  | some d =>
      dsimp only
      exact ⟨_, rfl, rfl, rfl⟩

theorem task_result_step_topology_key (s : RuntimeState) (a : String)
    (p : TaskResultPayload) (now : Int) :
    (task_result_step s a p now).topology_key = s.topology_key := by
  unfold task_result_step
  cases hl : lookupKV s.tasks p.task_id <;> rfl

theorem dispatch_task_snd_topology_key (s : RuntimeState) (agents : List String)
    (kind : String) (params : JsonValue) (task_id : String) (now : Int) :
    ((dispatch_task s agents kind params task_id now).2).topology_key
      = s.topology_key := by
  unfold dispatch_task
  repeat' split
  all_goals rfl

theorem step_topology_facts (s : RuntimeState) (ev : Ev) :
    s.topology_snapshot.revision ≤ (step s ev).topology_snapshot.revision ∧
    ((step s ev).topology_snapshot.revision ≠ s.topology_snapshot.revision →
      (step s ev).topology_key ≠ s.topology_key) := by
  have triv : ∀ X : RuntimeState, X.topology_snapshot = s.topology_snapshot →
      X.topology_key = s.topology_key →
      (s.topology_snapshot.revision ≤ X.topology_snapshot.revision ∧
       (X.topology_snapshot.revision ≠ s.topology_snapshot.revision →
         X.topology_key ≠ s.topology_key)) := by
    intro X h1 h2
    rw [h1, h2]
    exact ⟨Nat.le_refl _, fun hne => absurd rfl hne⟩
  cases ev with
  | register a secret hostname ips os ver net now =>
      simp only [step]
      by_cases hsec : secret = s.pair_token
      · obtain ⟨X, hX, h1, h2⟩ :=
          register_step_topology s a secret hostname ips os ver net now hsec
        rw [hX]
        exact rebuild_rev_facts s X now h1 h2
      · rw [register_step_bad_secret s a secret hostname ips os ver net now hsec]
        exact triv s rfl rfl
  | heartbeat a p now =>
      simp only [step]
      cases hl : lookupKV s.devices a with
      | none =>
          rw [heartbeat_step_none s a p now hl]
          exact triv s rfl rfl
      | some d =>
          obtain ⟨X, hX, h1, h2⟩ := heartbeat_step_topology s a p now d hl
          rw [hX]
          exact rebuild_rev_facts s X now h1 h2
  | task_result a p now =>
      simp only [step]
      exact triv _ (task_result_step_topology_snapshot s a p now)
        (task_result_step_topology_key s a p now)
  | disconnect a now =>
      simp only [step]
      obtain ⟨X, hX, h1, h2⟩ := on_agent_disconnect_topology s a now
      rw [hX]
      exact rebuild_rev_facts s X now h1 h2
  | watchdog now =>
      simp only [step]
      exact triv _ (heartbeat_watchdog_step_topology_snapshot s now)
        (heartbeat_watchdog_step_topology_key s now)
  | dispatch agents kind params task_id now =>
      simp only [step]
      exact triv _ (dispatch_task_snd_topology_snapshot s agents kind params task_id now)
        (dispatch_task_snd_topology_key s agents kind params task_id now)
  | rotate token now =>
      simp only [step]
      exact triv _ rfl rfl
  | set_online b =>
      simp only [step]
      exact triv _ rfl rfl

/- Projection lemmas for the device update pipelines. -/

theorem apply_network_payload_status (d : DeviceRecord) (n : NetworkFactsPayload) :
    (apply_network_payload d n).status = d.status := rfl

theorem apply_network_payload_last_seen (d : DeviceRecord) (n : NetworkFactsPayload) :
    (apply_network_payload d n).last_seen_ms = d.last_seen_ms := rfl

theorem apply_network_payload_first_seen (d : DeviceRecord) (n : NetworkFactsPayload) :
    (apply_network_payload d n).first_seen_ms = d.first_seen_ms := rfl

theorem apply_network_payload_internet (d : DeviceRecord) (n : NetworkFactsPayload) :
    (apply_network_payload d n).internet_reachable = d.internet_reachable := rfl

theorem apply_network_payload_gateway (d : DeviceRecord) (n : NetworkFactsPayload) :
    (apply_network_payload d n).default_gateway_ip
      = clean_non_empty_owned n.default_gateway_ip := rfl

theorem apply_metrics_status (d : DeviceRecord) (m : Option MetricsPayload) :
    (apply_metrics d m).status = d.status := by
  cases m <;> rfl

theorem apply_metrics_last_seen (d : DeviceRecord) (m : Option MetricsPayload) :
    (apply_metrics d m).last_seen_ms = d.last_seen_ms := by
  cases m <;> rfl

theorem apply_metrics_internet_none (d : DeviceRecord) :
    (apply_metrics d none).internet_reachable = d.internet_reachable := rfl

theorem apply_metrics_internet_some (d : DeviceRecord) (m : MetricsPayload)
    (v : Option Bool) (h : m.internet_reachable = some v) :
    (apply_metrics d (some m)).internet_reachable = v := by
  unfold apply_metrics
  dsimp only
  rw [h]

theorem register_device_update_status (entry0 : DeviceRecord) (hostname : String)
    (ips : List String) (os ver : String) (net : NetworkFactsPayload) (now : Int) :
    (register_device_update entry0 hostname ips os ver net now).status = "online" := rfl

theorem register_device_update_first_seen (entry0 : DeviceRecord) (hostname : String)
    (ips : List String) (os ver : String) (net : NetworkFactsPayload) (now : Int) :
    (register_device_update entry0 hostname ips os ver net now).first_seen_ms
      = entry0.first_seen_ms := rfl

theorem heartbeat_device_update_status (d : DeviceRecord) (p : HeartbeatPayload)
    (now : Int) :
    (heartbeat_device_update d p now).status
      = (if p.status ≠ "" then p.status else d.status) := by
  unfold heartbeat_device_update
  dsimp only
  rw [apply_network_payload_status, apply_metrics_status]

theorem heartbeat_device_update_last_seen (d : DeviceRecord) (p : HeartbeatPayload)
    (now : Int) :
    (heartbeat_device_update d p now).last_seen_ms
      = (if 0 < p.last_seen then p.last_seen else now) := by
  unfold heartbeat_device_update
  dsimp only
  rw [apply_network_payload_last_seen, apply_metrics_last_seen]

theorem heartbeat_device_update_internet_some (d : DeviceRecord) (p : HeartbeatPayload)
    (now : Int) (m : MetricsPayload) (v : Option Bool) (hm : p.metrics = some m)
    (hv : m.internet_reachable = some v) :
    (heartbeat_device_update d p now).internet_reachable = v := by
  unfold heartbeat_device_update
  dsimp only
  rw [apply_network_payload_internet, hm, apply_metrics_internet_some _ m v hv]

theorem heartbeat_device_update_internet_none (d : DeviceRecord) (p : HeartbeatPayload)
    (now : Int) (hm : p.metrics = none) :
    (heartbeat_device_update d p now).internet_reachable = d.internet_reachable := by
  unfold heartbeat_device_update
  dsimp only
  rw [apply_network_payload_internet, hm, apply_metrics_internet_none]

theorem heartbeat_device_update_gateway (d : DeviceRecord) (p : HeartbeatPayload)
    (now : Int) :
    (heartbeat_device_update d p now).default_gateway_ip
      = clean_non_empty_owned p.network.default_gateway_ip := by
  unfold heartbeat_device_update
  dsimp only
  rw [apply_network_payload_gateway]

/- ================= The claims ================= -/

set_option maxRecDepth 1000000

/-- C1 (counterexample): the claim "terminal iff results length equals assigned
length" fails on the reachable state sC1, where task T1 is terminal with two
results but only one assigned agent, because an agent outside the assigned
list reported a result after the task had already ended. -/
theorem C1_counterexample : ¬ C1_claim := by
  intro h
  have hr : Reachable sC1 := ⟨"tok", adm0, evsC1, rfl⟩
  have hl : lookupKV sC1.tasks "T1" = some tC1 := by decide
  have h2 := (h sC1 hr "T1" tC1 hl).1
  have hterm : task_terminal tC1 := Or.inl (by decide)
  exact absurd (h2.mp hterm) (by decide)

/-- C1 (amended): for every reachable state and task, the status is terminal
iff the results list has reached at least the assigned-agents count (results
from unassigned agents can push the length strictly past it), and a terminal
task has its ended-at set. -/
theorem C1_amended_terminal_threshold : ∀ s, Reachable s → ∀ k t,
    lookupKV s.tasks k = some t →
    ((task_terminal t ↔ t.assigned_agents.length ≤ t.results.length) ∧
     (task_terminal t → t.ended_at.isSome = true)) := by
  intro s hs k t ht
  obtain ⟨h1, h2, h3, h4⟩ := tasks_inv_reachable s hs k t ht
  exact ⟨h2, h3⟩

/-- C1 witness: the amended theorem applied to the reachable state sC1 and the
stored task tC1 shows its ended-at is set. -/
theorem C1_amended_witness : tC1.ended_at.isSome = true :=
  (C1_amended_terminal_threshold sC1 ⟨"tok", adm0, evsC1, rfl⟩ "T1" tC1 (by decide)).2
    (Or.inl (by decide))

/-- C2 (counterexample): the claim "offline iff no connections entry" fails on
the reachable state sC2: the watchdog flipped device A to offline but left its
connections entry in place (channel removal is owned by the session teardown). -/
theorem C2_counterexample : ¬ C2_claim := by
  intro h
  have hr : Reachable sC2 := ⟨"tok", adm0, evsC2, rfl⟩
  have hl : lookupKV sC2.devices "A" = some dC2 := by decide
  have h2 := (h sC2 hr "A" dC2 hl).mp (by decide)
  exact h2 (by decide)

/-- C2 (amended): every agent-id with an entry in the connections map has a
device record; a successful register leaves the agent with an entry and status
online; on_agent_disconnect removes the entry and marks the device offline,
stamping last-seen. The full iff fails because the watchdog flips stale
devices offline without removing their entry. -/
theorem C2_amended_connection_device : ∀ s, Reachable s →
    (∀ a, a ∈ s.connections → (lookupKV s.devices a).isSome = true) ∧
    (∀ a secret hostname ips os ver net now, secret = s.pair_token →
      (a ∈ (register_step s a secret hostname ips os ver net now).connections ∧
       (lookupKV (register_step s a secret hostname ips os ver net now).devices a).map
         (fun d => d.status) = some "online")) ∧
    (∀ a now, a ∉ (on_agent_disconnect s a now).connections ∧
      ∀ d, lookupKV s.devices a = some d →
        (lookupKV (on_agent_disconnect s a now).devices a).map
          (fun d2 => (d2.status, d2.last_seen_ms)) = some ("offline", now)) := by
  intro s hs
  refine ⟨conn_inv_reachable s hs, ?_, ?_⟩
  · intro a secret hostname ips os ver net now hsec
    constructor
    · rw [register_step_connections s a secret hostname ips os ver net now hsec]
      exact self_mem_conn_insert s.connections a
    · rw [register_step_devices s a secret hostname ips os ver net now hsec]
      rw [lookupKV_insertKV_self]
      rw [Option.map_some']
      rw [register_device_update_status]
  · intro a now
    constructor
    · rw [on_agent_disconnect_connections]
      intro hmem
      have := (List.mem_filter.mp hmem).2
      simp at this
    · intro d hd
      rw [on_agent_disconnect_devices_some s a now d hd]
      rw [lookupKV_insertKV_self]
      rfl

/-- C2 witness: the amended theorem applied to the reachable state sW shows
that the registered agent A has a device record and that a disconnect removes
its connections entry. -/
theorem C2_amended_witness :
    (lookupKV sW.devices "A").isSome = true ∧
    "A" ∉ (on_agent_disconnect sW "A" 5).connections := by
  have h := C2_amended_connection_device sW ⟨"tok", adm0, evsW, rfl⟩
  exact ⟨h.1 "A" (by decide), (h.2.2 "A" 5).1⟩

/-- C3: if the candidate snapshot's structural key equals the stored key, the
rebuild leaves the state (snapshot, revision, emissions) unchanged; if it
differs, the snapshot is replaced by the candidate, the revision becomes
exactly the previous revision plus one, and the snapshot is emitted. Across
every event, the revision is monotone and changes only when the structural
key changes. -/
theorem C3_topology_revision_monotonic : ∀ (s : RuntimeState) (now : Int),
    (topology_key (topology_candidate s now) = s.topology_key →
      rebuild_topology_if_changed s now = s) ∧
    (topology_key (topology_candidate s now) ≠ s.topology_key →
      ((rebuild_topology_if_changed s now).topology_snapshot = topology_candidate s now ∧
       (rebuild_topology_if_changed s now).topology_snapshot.revision
         = s.topology_snapshot.revision + 1 ∧
       (rebuild_topology_if_changed s now).topology_emits
         = topology_candidate s now :: s.topology_emits)) ∧
    (∀ ev : Ev, s.topology_snapshot.revision ≤ (step s ev).topology_snapshot.revision ∧
      ((step s ev).topology_snapshot.revision ≠ s.topology_snapshot.revision →
        (step s ev).topology_key ≠ s.topology_key)) := by
  intro s now
  refine ⟨rebuild_eq_of_key_eq s now, ?_, step_topology_facts s⟩
  intro h
  rw [rebuild_eq_of_key_ne s now h]
  exact ⟨rfl, topology_candidate_revision s now, rfl⟩

/-- C3 witness: on the fresh initial state the first rebuild bumps the
revision to 1, and an immediately repeated rebuild is a no-op. -/
theorem C3_witness :
    (rebuild_topology_if_changed (initState "tok" adm0) 0).topology_snapshot.revision
      = (initState "tok" adm0).topology_snapshot.revision + 1 ∧
    rebuild_topology_if_changed (rebuild_topology_if_changed (initState "tok" adm0) 0) 7
      = rebuild_topology_if_changed (initState "tok" adm0) 0 := by
  have h1 := ((C3_topology_revision_monotonic (initState "tok" adm0) 0).2.1
    (by decide)).2.1
  have h2 := (C3_topology_revision_monotonic
    (rebuild_topology_if_changed (initState "tok" adm0) 0) 7).1 (by decide)
  exact ⟨h1, h2⟩

/-- C4: dispatch_task rejects an empty agent list with the exact error string
"at least one agent is required" and an unsupported kind with "unsupported
task kind"; in both cases the returned state is the input state, so no task
record is created. -/
theorem C4_dispatch_validation : ∀ (s : RuntimeState) (agents : List String)
    (kind : String) (params : JsonValue) (task_id : String) (now : Int),
    (agents = [] →
      dispatch_task s agents kind params task_id now
        = (Except.error "at least one agent is required", s)) ∧
    (agents ≠ [] → kind ≠ "ping" → kind ≠ "port_scan" → kind ≠ "arp_snapshot" →
      dispatch_task s agents kind params task_id now
        = (Except.error "unsupported task kind", s)) := by
  intro s agents kind params task_id now
  constructor
  · intro hA
    unfold dispatch_task
    rw [if_pos hA]
  · intro hA h1 h2 h3
    unfold dispatch_task
    rw [if_neg hA, if_pos (fun hc => hc.elim h1 (fun hc2 => hc2.elim h2 h3))]

/-- C4 witness: both rejections at concrete inputs. -/
theorem C4_witness :
    dispatch_task (initState "tok" adm0) [] "ping" "q" "T" 0
      = (Except.error "at least one agent is required", initState "tok" adm0) ∧
    dispatch_task (initState "tok" adm0) ["A"] "nmap" "q" "T" 0
      = (Except.error "unsupported task kind", initState "tok" adm0) := by
  have h1 := (C4_dispatch_validation (initState "tok" adm0) [] "ping" "q" "T" 0).1 rfl
  have h2 := (C4_dispatch_validation (initState "tok" adm0) ["A"] "nmap" "q" "T" 0).2
    (by decide) (by decide) (by decide) (by decide)
  exact ⟨h1, h2⟩

/-- C5 (counterexample): the claim fails on the reachable state sC5: an
emission matching the newest entry's kind and agent-id within 30 s is dropped
entirely by the 5-second per-agent rate limit, so the entry's count and
timestamp are not updated. -/
theorem C5_counterexample : ¬ C5_claim := by
  intro h
  have hr : Reachable sC5 := ⟨"tok", adm0, evsC5, rfl⟩
  have h2 := h sC5 hr "device_status_changed" (some "A") "m2" 13000 actC5 []
    (by decide) (by decide) (by decide) (by decide)
  exact absurd h2 (by decide)

/-- C5 (amended): when the emission additionally survives the per-agent 5 s
rate limit (no agent-id, or at least 5 s since that agent's last accepted
activity emission), an emission matching the newest entry's kind and agent-id
within 30 s never appends: it bumps the entry's timestamp to now and
increments its count (absent counts as 1, so absent becomes 2). -/
theorem C5_amended_dedupe : ∀ (s : RuntimeState) (kind : String) (aid : Option String)
    (msg : String) (now : Int) (front : ActivityEvent) (rest : List ActivityEvent),
    s.activity = front :: rest → front.kind = kind → front.agent_id = aid →
    now - front.ts ≤ ACTIVITY_DEDUPE_MS →
    activity_dropped s.last_activity_emit_ms aid now = false →
    (emit_activity s kind aid msg now).activity =
      { front with ts := now, count := some (front.count.getD 1 + 1) } :: rest := by
  intro s kind aid msg now front rest hact hkind haid hts hdrop
  show activity_after s.activity s.last_activity_emit_ms kind aid msg now = _
  unfold activity_after
  rw [hdrop]
  simp only [Bool.false_eq_true, if_false]
  rw [hact]
  dsimp only
  rw [if_pos ⟨hkind, haid, hts⟩]

/-- C5 witness: a concrete merge of a front entry without a count: the count
becomes 2 and the timestamp is bumped. -/
theorem C5_amended_witness :
    (emit_activity sC5w "task_started" none "m2" 200).activity
      = [{ actW with ts := 200, count := some 2 }] :=
  C5_amended_dedupe sC5w "task_started" none "m2" 200 actW []
    rfl rfl rfl (by decide) (by decide)

/-- C6: one watchdog sweep flips a non-offline device to offline exactly when
now minus last-seen strictly exceeds the 20 s timeout; a device whose last
heartbeat is exactly timeout ms old is left untouched. -/
theorem C6_watchdog_boundary : ∀ (s : RuntimeState) (now : Int) (a : String)
    (d : DeviceRecord), lookupKV s.devices a = some d → d.status ≠ "offline" →
    (((lookupKV (heartbeat_watchdog_step s now).devices a).map (fun d2 => d2.status)
        = some "offline") ↔ HEARTBEAT_TIMEOUT_MS < now - d.last_seen_ms) ∧
    (now - d.last_seen_ms = HEARTBEAT_TIMEOUT_MS →
      lookupKV (heartbeat_watchdog_step s now).devices a = some d) := by
  intro s now a d hl hoff
  rw [heartbeat_watchdog_step_devices, lookupKV_map_val, hl]
  constructor
  · rw [Option.map_some']
    unfold watchdog_update
    by_cases hc : HEARTBEAT_TIMEOUT_MS < now - d.last_seen_ms
    · rw [if_pos ⟨hoff, hc⟩]
      simpa using hc
    · rw [if_neg (fun hand => hc hand.2)]
      constructor
      · intro hst
        exact absurd (Option.some.inj hst) hoff
      · intro h2
        exact absurd h2 hc
  · intro heq
    rw [Option.map_some']
    unfold watchdog_update
    rw [if_neg (fun hand => absurd hand.2 (by rw [heq]; exact lt_irrefl _))]

/-- C6 witness: at exactly 20000 ms of silence the device is untouched; at
20001 ms it is flipped to offline. -/
theorem C6_witness :
    lookupKV (heartbeat_watchdog_step sC6 20000).devices "A" = some dW ∧
    (lookupKV (heartbeat_watchdog_step sC6 20001).devices "A").map (fun d2 => d2.status)
      = some "offline" := by
  have h1 := (C6_watchdog_boundary sC6 20000 "A" dW (by decide) (by decide)).2 (by decide)
  have h2 := (C6_watchdog_boundary sC6 20001 "A" dW (by decide) (by decide)).1.mpr
    (by decide)
  exact ⟨h1, h2⟩

/-- C7: device_order of a reachable state has no duplicates; a re-register of
an existing agent with a valid secret leaves device_order and the device's
first-seen-ms unchanged; the first register of a new agent appends it at the
end of device_order. -/
theorem C7_reregister_first_seen : ∀ s, Reachable s →
    s.device_order.Nodup ∧
    (∀ a secret hostname ips os ver net now (d : DeviceRecord),
      lookupKV s.devices a = some d → secret = s.pair_token →
      ((register_step s a secret hostname ips os ver net now).device_order
          = s.device_order ∧
       (lookupKV (register_step s a secret hostname ips os ver net now).devices a).map
         (fun d2 => d2.first_seen_ms) = some d.first_seen_ms)) ∧
    (∀ a secret hostname ips os ver net now,
      lookupKV s.devices a = none → secret = s.pair_token →
      (register_step s a secret hostname ips os ver net now).device_order
        = s.device_order ++ [a]) := by
  intro s hs
  refine ⟨(order_inv_reachable s hs).1, ?_, ?_⟩
  · intro a secret hostname ips os ver net now d hd hsec
    constructor
    · rw [register_step_device_order s a secret hostname ips os ver net now hsec, hd]
      rfl
    · rw [register_step_devices s a secret hostname ips os ver net now hsec, hd]
      rw [lookupKV_insertKV_self, Option.map_some']
      rw [register_device_update_first_seen]
      rfl
  · intro a secret hostname ips os ver net now hd hsec
    rw [register_step_device_order s a secret hostname ips os ver net now hsec, hd]
    rfl

/-- C7 witness: a second register of agent A on the reachable state sW leaves
device_order and first-seen-ms unchanged. -/
theorem C7_witness :
    (register_step sW "A" "tok" "hostA2" ["10.0.0.7"] "linux" "1.1" net0 50).device_order
      = sW.device_order ∧
    (lookupKV (register_step sW "A" "tok" "hostA2" ["10.0.0.7"] "linux" "1.1" net0
      50).devices "A").map (fun d2 => d2.first_seen_ms) = some dW.first_seen_ms := by
  have h := (C7_reregister_first_seen sW ⟨"tok", adm0, evsW, rfl⟩).2.1
    "A" "tok" "hostA2" ["10.0.0.7"] "linux" "1.1" net0 50 dW (by decide) (by decide)
  exact h

/-- C8: rotate_pair_token replaces the pair token and pushes one log entry;
every other part of the state (devices, device_order, tasks, activity ring,
connections, topology snapshot / key / emissions, throttle maps, online flag,
admin facts) is unchanged, so no open agent session is closed or evicted. -/
theorem C8_rotate_frame : ∀ (s : RuntimeState) (tok : String) (now : Int),
    (rotate_pair_token s tok now).pair_token = tok ∧
    (rotate_pair_token s tok now).devices = s.devices ∧
    (rotate_pair_token s tok now).device_order = s.device_order ∧
    (rotate_pair_token s tok now).tasks = s.tasks ∧
    (rotate_pair_token s tok now).activity = s.activity ∧
    (rotate_pair_token s tok now).connections = s.connections ∧
    (rotate_pair_token s tok now).topology_snapshot = s.topology_snapshot ∧
    (rotate_pair_token s tok now).topology_key = s.topology_key ∧
    (rotate_pair_token s tok now).topology_emits = s.topology_emits ∧
    (rotate_pair_token s tok now).last_device_emit_ms = s.last_device_emit_ms ∧
    (rotate_pair_token s tok now).last_activity_emit_ms = s.last_activity_emit_ms ∧
    (rotate_pair_token s tok now).online = s.online ∧
    (rotate_pair_token s tok now).admin_network = s.admin_network ∧
    (rotate_pair_token s tok now).logs
      = ({ id := "", agent_id := none, level := "INFO",
           message := "Pair token rotated", ts := now } :: s.logs).take MAX_LOGS := by
  intro s tok now
  exact ⟨rfl, rfl, rfl, rfl, rfl, rfl, rfl, rfl, rfl, rfl, rfl, rfl, rfl, rfl⟩

/-- C9: a task_result frame naming an existing task is recorded even when the
sender is not in the task's assigned-agents list: any prior result of the
same agent is replaced, the assigned list is untouched, and once the results
length reaches the assigned count the task becomes terminal with ended-at
set to now. -/
theorem C9_unassigned_result : ∀ (s : RuntimeState) (a : String)
    (p : TaskResultPayload) (now : Int) (t : TaskRecord),
    lookupKV s.tasks p.task_id = some t → a ∉ t.assigned_agents →
    (lookupKV (task_result_step s a p now).tasks p.task_id
        = some (task_result_update t a p now) ∧
     (task_result_update t a p now).results
        = t.results.filter (fun r => r.agent_id ≠ a) ++ [mk_result a p now] ∧
     (task_result_update t a p now).assigned_agents = t.assigned_agents ∧
     ((t.results.filter (fun r => r.agent_id ≠ a) ++ [mk_result a p now]).length
          = t.assigned_agents.length →
        (task_terminal (task_result_update t a p now) ∧
         (task_result_update t a p now).ended_at = some now))) := by
  intro s a p now t hl hna
  refine ⟨?_, ?_, ?_, ?_⟩
  · rw [task_result_step_tasks s a p now t hl, lookupKV_insertKV_self]
  · unfold task_result_update
    dsimp only
    split <;> rfl
  · unfold task_result_update
    dsimp only
    split <;> rfl
  · intro hlen
    unfold task_result_update
    dsimp only
    rw [if_pos hlen]
    constructor
    · simp only [task_terminal]
      split <;> simp
    · rfl

/-- C9 witness: agent B, not assigned to task T2, reports a result; it is
recorded and makes the task terminal. -/
theorem C9_witness :
    lookupKV (task_result_step sC9 "B" pC9 77).tasks "T2"
      = some (task_result_update tC9 "B" pC9 77) ∧
    task_terminal (task_result_update tC9 "B" pC9 77) := by
  have h := C9_unassigned_result sC9 "B" pC9 77 tC9 (by decide) (by decide)
  exact ⟨h.1, (h.2.2.2 (by decide)).1⟩

/-- C10: a heartbeat for an existing device stores exactly the updated record;
an empty payload status leaves the stored status unchanged while a non-empty
one overwrites it, last-seen takes the payload value when positive and the
server clock otherwise, present metrics keys overwrite the health fields, and
the network facts are reapplied. -/
theorem C10_heartbeat_status : ∀ (s : RuntimeState) (a : String)
    (p : HeartbeatPayload) (now : Int) (d : DeviceRecord),
    lookupKV s.devices a = some d →
    (lookupKV (heartbeat_step s a p now).devices a
        = some (heartbeat_device_update d p now) ∧
     (p.status = "" → (heartbeat_device_update d p now).status = d.status) ∧
     (p.status ≠ "" → (heartbeat_device_update d p now).status = p.status) ∧
     (heartbeat_device_update d p now).last_seen_ms
        = (if 0 < p.last_seen then p.last_seen else now) ∧
     (∀ m v, p.metrics = some m → m.internet_reachable = some v →
        (heartbeat_device_update d p now).internet_reachable = v) ∧
     (p.metrics = none →
        (heartbeat_device_update d p now).internet_reachable = d.internet_reachable) ∧
     (heartbeat_device_update d p now).default_gateway_ip
        = clean_non_empty_owned p.network.default_gateway_ip) := by
  intro s a p now d hl
  refine ⟨?_, ?_, ?_, ?_, ?_, ?_, ?_⟩
  · rw [heartbeat_step_devices s a p now d hl, lookupKV_insertKV_self]
  · intro hp
    rw [heartbeat_device_update_status]
    rw [if_neg (not_not_intro hp)]
  · intro hp
    rw [heartbeat_device_update_status]
    rw [if_pos hp]
  · exact heartbeat_device_update_last_seen d p now
  · intro m v hm hv
    exact heartbeat_device_update_internet_some d p now m v hm hv
  · intro hm
    exact heartbeat_device_update_internet_none d p now hm
  · exact heartbeat_device_update_gateway d p now

/-- C10 witness: a heartbeat with empty status and a metrics key updates
last-seen and internet-reachable but keeps the status. -/
theorem C10_witness :
    lookupKV (heartbeat_step sC6 "A" pHB 600).devices "A"
      = some (heartbeat_device_update dW pHB 600) ∧
    (heartbeat_device_update dW pHB 600).status = dW.status ∧
    (heartbeat_device_update dW pHB 600).last_seen_ms = 500 ∧
    (heartbeat_device_update dW pHB 600).internet_reachable = some true := by
  have h := C10_heartbeat_status sC6 "A" pHB 600 dW (by decide)
  refine ⟨h.1, h.2.1 rfl, ?_, ?_⟩
  · rw [h.2.2.2.1]
    decide
  · exact h.2.2.2.2.1 _ _ rfl rfl

end LabScan
